import Mathlib

/-!
Verification development for the asynchronous socket engine
(lock-free SPSC event pipeline, callback dispatcher, socket state machines).

The definitions below are shallow embeddings of the C++ sources:
* SPSCQueue.h           -> SPSCQueue, try_enqueue, try_dequeue
* SocketTypes.h         -> SocketError, SocketOption, CallbackEvent, RemoteEndpoint,
                           GlobalOptions
* SocketBase.h/.cpp     -> SocketBase, GetOption, IsDeleted, MarkDeleted, destructor
* CallbackManager.cpp   -> Enqueue-side and Execute-side of the dispatcher, and
                           ProcessPendingCallbacks (the drain)
* TcpSocket.cpp         -> InitSocket (CAS install discipline), Bind, Disconnect,
                           OnConnect, OnConnectTimeout
* UdpSocket.cpp         -> Bind, Disconnect
* UnixSocket.cpp        -> Bind

Machine integers: the ring-buffer indices are size_t values kept below the
power-of-two capacity by the masking the source performs; they are modelled
as Nat with the identical mask operation.  C++ int values (option values,
callback budgets, uv status codes) are modelled as Int.  Pointers
(uv handles, heap buffers, plugin functions) are modelled as identifiers
(Nat / Option Nat); null is none.
-/

/-! ## SPSCQueue (src/include/lockfree/SPSCQueue.h)

The template parameter Capacity is a power of two greater than 1
(static_assert in the source).  One slot is reserved, so the usable
capacity is Capacity - 1.  The atomic head/tail and the producer/consumer
cached copies are modelled as plain fields: the claims are about sequences
of operations by one producer and one consumer, and each operation is
modelled as an atomic step, matching the SPSC linearization the
acquire/release pairs in the source provide.  The uninitialized raw
storage is modelled as Option-valued slots; destroying a slot in place
clears it to none. -/

structure SPSCQueue (T : Type) where
  Capacity : Nat
  m_buffer : Nat → Option T
  m_tail : Nat
  m_cachedHead : Nat
  m_head : Nat
  m_cachedTail : Nat

namespace SPSCQueue

variable {T : Type}

/-- kMask = Capacity - 1 (source: static constexpr size_t kMask). -/
def kMask (q : SPSCQueue T) : Nat := q.Capacity - 1

/-- bool try_enqueue(T&& item): producer side.  Reads tail, computes
next = (tail + 1) & kMask, refreshes the cached head from m_head if next
hits the cache, fails when next still equals the (refreshed) cached head,
otherwise stores the item at tail and publishes next as the new tail.
The branch that did not refresh stores the unchanged cached value back. -/
def try_enqueue (q : SPSCQueue T) (item : T) : Bool × SPSCQueue T :=
  let tail := q.m_tail
  let next := (tail + 1) &&& q.kMask
  let cachedHead := if next = q.m_cachedHead then q.m_head else q.m_cachedHead
  if next = cachedHead then
    (false, { q with m_cachedHead := cachedHead })
  else
    (true, { q with m_cachedHead := cachedHead,
                    m_buffer := Function.update q.m_buffer tail (some item),
                    m_tail := next })

/-- bool try_dequeue(T& item): consumer side.  Reads head, refreshes the
cached tail from m_tail if head hits the cache, fails when head still
equals the (refreshed) cached tail, otherwise moves the item out of the
slot (the slot is destroyed in place, modelled by clearing it to none)
and releases the slot by publishing (head + 1) & kMask. -/
def try_dequeue (q : SPSCQueue T) : Option T × SPSCQueue T :=
  let head := q.m_head
  let cachedTail := if head = q.m_cachedTail then q.m_tail else q.m_cachedTail
  if head = cachedTail then
    (none, { q with m_cachedTail := cachedTail })
  else
    let item := q.m_buffer head
    (item, { q with m_cachedTail := cachedTail,
                    m_buffer := Function.update q.m_buffer head none,
                    m_head := (head + 1) &&& q.kMask })

/-- The default-constructed queue: all indices zero, no live slots. -/
def mkEmpty (N : Nat) : SPSCQueue T :=
  { Capacity := N, m_buffer := fun _ => none, m_tail := 0, m_cachedHead := 0,
    m_head := 0, m_cachedTail := 0 }

end SPSCQueue

/-- One producer/consumer operation on the queue. -/
inductive QueueOp (T : Type) where
  | push (x : T)
  | pop
deriving DecidableEq

/-- The visible result of one operation: the bool returned by try_enqueue,
or the optional item returned by try_dequeue. -/
inductive OpResult (T : Type) where
  | pushed (ok : Bool)
  | popped (r : Option T)
deriving DecidableEq

/-- Run a sequence of operations against the embedded queue, collecting
the visible results. -/
def runQueue {T : Type} (q : SPSCQueue T) : List (QueueOp T) → List (OpResult T) × SPSCQueue T
  | [] => ([], q)
  | QueueOp.push x :: ops =>
    let r := q.try_enqueue x
    let rest := runQueue r.2 ops
    (OpResult.pushed r.1 :: rest.1, rest.2)
  | QueueOp.pop :: ops =>
    let r := q.try_dequeue
    let rest := runQueue r.2 ops
    (OpResult.popped r.1 :: rest.1, rest.2)

/-- Specification-side push, written from the spec's words (the refinement
target for the SPSC ring): a bounded FIFO holding at most N - 1 items;
try_push fails exactly when N - 1 items are held, otherwise appends at
the back. -/
def specPush {T : Type} (N : Nat) (l : List T) (x : T) : Bool × List T :=
  if l.length = N - 1 then (false, l) else (true, l ++ [x])

/-- Specification-side pop: removes and returns the oldest item (FIFO). -/
def specPop {T : Type} (l : List T) : Option T × List T :=
  match l with
  | [] => (none, [])
  | x :: xs => (some x, xs)

/-- Run a sequence of operations against the specification FIFO. -/
def runSpec {T : Type} (N : Nat) (l : List T) : List (QueueOp T) → List (OpResult T) × List T
  | [] => ([], l)
  | QueueOp.push x :: ops =>
    let r := specPush N l x
    let rest := runSpec N r.2 ops
    (OpResult.pushed r.1 :: rest.1, rest.2)
  | QueueOp.pop :: ops =>
    let r := specPop l
    let rest := runSpec N r.2 ops
    (OpResult.popped r.1 :: rest.1, rest.2)

/-- Coupling invariant between a queue state and the abstract FIFO list it
holds.  The ghost counters H, Tl, CH, CT are the unwrapped values of the
masked indices stored in the state: H and Tl count all pops and pushes so
far, CH and CT are the (older) head/tail values the producer/consumer
caches were last refreshed from. -/
def QueueInv {T : Type} (k : Nat) (q : SPSCQueue T) (l : List T) : Prop :=
  q.Capacity = 2 ^ k ∧ 1 ≤ k ∧
  ∃ H Tl CH CT : Nat,
    q.m_head = H % 2 ^ k ∧ q.m_tail = Tl % 2 ^ k ∧
    q.m_cachedHead = CH % 2 ^ k ∧ q.m_cachedTail = CT % 2 ^ k ∧
    H ≤ Tl ∧ Tl - H = l.length ∧ Tl - H ≤ 2 ^ k - 1 ∧
    CH ≤ H ∧ Tl - CH ≤ 2 ^ k - 1 ∧
    H ≤ CT ∧ CT ≤ Tl ∧
    (∀ i, i < l.length → q.m_buffer ((H + i) % 2 ^ k) = l[i]?)

/-! ## Socket types (src/include/socket/SocketTypes.h) -/

inductive SocketType where
  | Tcp
  | Udp
  | Unix
deriving DecidableEq

inductive SocketError where
  | None
  | EmptyHost
  | NoHost
  | ConnectError
  | SendError
  | BindError
  | RecvError
  | ListenError
deriving DecidableEq

inductive SocketOption where
  | ConcatenateCallbacks
  | ForceFrameLock
  | CallbacksPerFrame
  | Broadcast
  | ReuseAddr
  | KeepAlive
  | Linger
  | OOBInline
  | SendBuffer
  | ReceiveBuffer
  | DontRoute
  | ReceiveLowWatermark
  | ReceiveTimeout
  | SendLowWatermark
  | SendTimeout
  | DebugMode
  | ConnectTimeout
  | AutoFreeHandle
deriving DecidableEq

/-- The numeric values of the SocketOption enum in the source. -/
def SocketOption.index : SocketOption → Nat
  | SocketOption.ConcatenateCallbacks => 1
  | SocketOption.ForceFrameLock => 2
  | SocketOption.CallbacksPerFrame => 3
  | SocketOption.Broadcast => 4
  | SocketOption.ReuseAddr => 5
  | SocketOption.KeepAlive => 6
  | SocketOption.Linger => 7
  | SocketOption.OOBInline => 8
  | SocketOption.SendBuffer => 9
  | SocketOption.ReceiveBuffer => 10
  | SocketOption.DontRoute => 11
  | SocketOption.ReceiveLowWatermark => 12
  | SocketOption.ReceiveTimeout => 13
  | SocketOption.SendLowWatermark => 14
  | SocketOption.SendTimeout => 15
  | SocketOption.DebugMode => 16
  | SocketOption.ConnectTimeout => 17
  | SocketOption.AutoFreeHandle => 18

inductive CallbackEvent where
  | Connect
  | Disconnect
  | Incoming
  | Receive
  | Error
  | Listen
deriving DecidableEq

structure RemoteEndpoint where
  address : String
  port : Nat
deriving DecidableEq

structure PendingOption where
  option : SocketOption
  value : Int
deriving DecidableEq

/-- Global options (extension-level settings).  The unordered_map is
modelled as an association list; Set is operator[] assignment. -/
structure GlobalOptions where
  m_options : List (SocketOption × Int)
deriving DecidableEq

/-- static int GetDefault(SocketOption option): 1 for CallbacksPerFrame,
0 otherwise. -/
def GlobalOptions.GetDefault : SocketOption → Int
  | SocketOption.CallbacksPerFrame => 1
  | _ => 0

/-- int Get(SocketOption option) const: the stored value if present,
the default otherwise. -/
def GlobalOptions.Get (g : GlobalOptions) (o : SocketOption) : Int :=
  match g.m_options.find? (fun p => decide (p.1 = o)) with
  | some p => p.2
  | none => GlobalOptions.GetDefault o

/-- void Set(SocketOption option, int value): insert-or-assign. -/
def GlobalOptions.Set (g : GlobalOptions) (o : SocketOption) (v : Int) : GlobalOptions :=
  { m_options := (o, v) :: g.m_options.filter (fun p => !(decide (p.1 = o))) }

/-- The process-start state of g_GlobalOptions: an empty map. -/
def g_GlobalOptionsInit : GlobalOptions := { m_options := [] }

/-! ## SocketBase (src/include/socket/SocketBase.h, src/impl/socket/SocketBase.cpp) -/

/-- CallbackInfo: IPluginFunction* function (none = nullptr) and the
user-data cell. -/
structure CallbackInfo where
  function : Option Nat
  data : Int
deriving DecidableEq

/-- kMaxOptions in SocketBase. -/
def kMaxOptions : Nat := 32

structure SocketBase where
  m_type : SocketType
  m_callbacks : CallbackEvent → CallbackInfo
  m_pendingOptions : List PendingOption
  m_deleted : Bool
  m_options : Nat → Int
  m_smHandle : Int

/-- CallbackInfo& GetCallback(CallbackEvent event). -/
def SocketBase.GetCallback (s : SocketBase) (event : CallbackEvent) : CallbackInfo :=
  s.m_callbacks event

/-- int GetOption(SocketOption option) const: reads the atomic array if
the index is in range, 0 otherwise. -/
def SocketBase.GetOption (s : SocketBase) (o : SocketOption) : Int :=
  if o.index < kMaxOptions then s.m_options o.index else 0

/-- bool IsDeleted() const. -/
def SocketBase.IsDeleted (s : SocketBase) : Bool := s.m_deleted

/-- void MarkDeleted(): sets the atomic deletion flag.  (The source
documents this as "Called from destructor"; see the C2 theorems.) -/
def SocketBase.MarkDeleted (s : SocketBase) : SocketBase :=
  { s with m_deleted := true }

/-- void StoreOption(SocketOption option, int value). -/
def SocketBase.StoreOption (s : SocketBase) (o : SocketOption) (v : Int) : SocketBase :=
  if o.index < kMaxOptions then { s with m_options := Function.update s.m_options o.index v }
  else s

/-- SocketBase::~SocketBase(): takes the handler/options locks and pops
every pending option; it does not touch m_deleted. -/
def SocketBase.destructor (s : SocketBase) : SocketBase :=
  { s with m_pendingOptions := [] }

/-! ## Queued events (src/include/lockfree/QueueTypes.h)

In the source each event carries a SocketBase* produced on the UV thread;
the drain dereferences it.  The pointer is modelled as an Option SocketBase
(the pointed-to state; none = nullptr).  The heap buffer of a data event
(char* data, malloc'd, consumer must free) is modelled as a RecvBuffer:
an allocation identifier plus the byte contents. -/

structure RecvBuffer where
  id : Nat
  bytes : List Nat
deriving DecidableEq

structure QueuedConnectEvent where
  socket : Option SocketBase
  remoteEndpoint : RemoteEndpoint

structure QueuedDataEvent where
  socket : Option SocketBase
  data : RecvBuffer
  length : Nat
  sender : RemoteEndpoint

structure QueuedErrorEvent where
  socket : Option SocketBase
  errorType : SocketError
  errorMsg : String

structure QueuedDisconnectEvent where
  socket : Option SocketBase

structure QueuedListenEvent where
  socket : Option SocketBase
  localEndpoint : RemoteEndpoint

structure QueuedIncomingEvent where
  socket : Option SocketBase
  newSocket : Option SocketBase
  remoteEndpoint : RemoteEndpoint

/-! ## CallbackManager (src/impl/core/CallbackManager.cpp)

The six m_xQueue members are SPSCQueue channels; their member declarations
(and capacities) are not part of the sources under src/, so the channels
are modelled through the bounded-FIFO abstraction that the SPSC refinement
theorem below establishes: a list of events plus a usable capacity cap
(= Capacity - 1), where try_enqueue succeeds exactly when fewer than cap
events are held and appends at the back, and try_dequeue takes the front. -/

/-- smutils->LogError guarded by the DebugMode global option: the emitted
log lines. -/
def debugLog (g : GlobalOptions) (msg : String) : List String :=
  if g.Get SocketOption.DebugMode ≠ 0 then [msg] else []

/-- Result of CallbackManager::EnqueueReceive: the data channel after the
call, the log lines emitted, the buffer ids allocated by the call and the
buffer ids freed again by the call itself. -/
structure EnqueueReceiveResult where
  m_dataQueue : List QueuedDataEvent
  logs : List String
  allocated : List Nat
  freed : List Nat

/-- void EnqueueReceive(SocketBase*, const char* data, size_t length,
const RemoteEndpoint& sender): mallocs length + 1 bytes (allocOk models
the malloc outcome, freshId the address); on allocation failure logs (in
debug mode) and returns; otherwise copies the length data bytes, appends
a NUL terminator, and try_enqueues the event; if the channel is full the
event is dropped and the buffer freed, logging only in debug mode. -/
def CallbackManager.EnqueueReceive (g : GlobalOptions) (allocOk : Bool) (freshId : Nat)
    (cap : Nat) (dataQueue : List QueuedDataEvent) (socket : Option SocketBase)
    (data : List Nat) (sender : RemoteEndpoint) : EnqueueReceiveResult :=
  if !allocOk then
    { m_dataQueue := dataQueue,
      logs := debugLog g "[Socket] Failed to allocate memory for receive data",
      allocated := [], freed := [] }
  else
    let dataCopy : RecvBuffer := { id := freshId, bytes := data ++ [0] }
    let event : QueuedDataEvent :=
      { socket := socket, data := dataCopy, length := data.length, sender := sender }
    if dataQueue.length < cap then
      { m_dataQueue := dataQueue ++ [event], logs := [],
        allocated := [freshId], freed := [] }
    else
      { m_dataQueue := dataQueue,
        logs := debugLog g "[Socket] Data queue full, dropping event",
        allocated := [freshId], freed := [freshId] }

/-- void EnqueueError(SocketBase*, SocketError, const char*): try_enqueues
the event; if the channel is full the event is dropped, logging only in
debug mode.  Returns the channel after the call and the log lines. -/
def CallbackManager.EnqueueError (g : GlobalOptions) (cap : Nat)
    (errorQueue : List QueuedErrorEvent) (socket : Option SocketBase)
    (errorType : SocketError) (errorMsg : String) :
    List QueuedErrorEvent × List String :=
  let event : QueuedErrorEvent :=
    { socket := socket, errorType := errorType, errorMsg := errorMsg }
  if errorQueue.length < cap then
    (errorQueue ++ [event], [])
  else
    (errorQueue, debugLog g "[Socket] Error queue full, dropping event")

/-- void EnqueueConnect(SocketBase*, const RemoteEndpoint&): try_enqueues
the event; if the channel is full the event is dropped, logging only in
debug mode. -/
def CallbackManager.EnqueueConnect (g : GlobalOptions) (cap : Nat)
    (connectQueue : List QueuedConnectEvent) (socket : Option SocketBase)
    (endpoint : RemoteEndpoint) : List QueuedConnectEvent × List String :=
  let event : QueuedConnectEvent := { socket := socket, remoteEndpoint := endpoint }
  if connectQueue.length < cap then
    (connectQueue ++ [event], [])
  else
    (connectQueue, debugLog g "[Socket] Connect queue full, dropping event")

/-- void EnqueueDisconnect(SocketBase*): try_enqueues the event; if the
channel is full the event is dropped, logging only in debug mode. -/
def CallbackManager.EnqueueDisconnect (g : GlobalOptions) (cap : Nat)
    (disconnectQueue : List QueuedDisconnectEvent) (socket : Option SocketBase) :
    List QueuedDisconnectEvent × List String :=
  let event : QueuedDisconnectEvent := { socket := socket }
  if disconnectQueue.length < cap then
    (disconnectQueue ++ [event], [])
  else
    (disconnectQueue, debugLog g "[Socket] Disconnect queue full, dropping event")

/-- void EnqueueListen(SocketBase*, const RemoteEndpoint& localEndpoint):
try_enqueues the event; if the channel is full the event is dropped,
logging only in debug mode. -/
def CallbackManager.EnqueueListen (g : GlobalOptions) (cap : Nat)
    (listenQueue : List QueuedListenEvent) (socket : Option SocketBase)
    (localEndpoint : RemoteEndpoint) : List QueuedListenEvent × List String :=
  let event : QueuedListenEvent := { socket := socket, localEndpoint := localEndpoint }
  if listenQueue.length < cap then
    (listenQueue ++ [event], [])
  else
    (listenQueue, debugLog g "[Socket] Listen queue full, dropping event")

/-- void EnqueueIncoming(SocketBase*, SocketBase* newSocket,
const RemoteEndpoint&): try_enqueues the event; if the channel is full
the event is dropped, logging only in debug mode. -/
def CallbackManager.EnqueueIncoming (g : GlobalOptions) (cap : Nat)
    (incomingQueue : List QueuedIncomingEvent) (socket : Option SocketBase)
    (newSocket : Option SocketBase) (remoteEndpoint : RemoteEndpoint) :
    List QueuedIncomingEvent × List String :=
  let event : QueuedIncomingEvent :=
    { socket := socket, newSocket := newSocket, remoteEndpoint := remoteEndpoint }
  if incomingQueue.length < cap then
    (incomingQueue ++ [event], [])
  else
    (incomingQueue, debugLog g "[Socket] Incoming queue full, dropping event")

/-- bool IsSocketValid(SocketBase* socket) const: null or deleted sockets
are invalid. -/
def CallbackManager.IsSocketValid : Option SocketBase → Bool
  | none => false
  | some socket => !socket.IsDeleted

/-- A user-callback invocation performed by the drain: which event kind
ran, the handle cell pushed, and the user-data cell pushed. -/
structure Invocation where
  event : CallbackEvent
  smHandle : Int
  userData : Int
deriving DecidableEq

/-- The observable side effects of one ExecuteX call: the callback
invocations performed, the SourceMod handles freed (FreeHandle), and the
heap buffers freed (free). -/
structure ExecEffect where
  invocations : List Invocation
  freedHandles : List Int
  freedBuffers : List Nat
deriving DecidableEq

def noEffect : ExecEffect :=
  { invocations := [], freedHandles := [], freedBuffers := [] }

/-- void ExecuteConnect(const QueuedConnectEvent&): skips invalid sockets
and unset callbacks, otherwise invokes the Connect callback.  There is no
auto-free block in this function. -/
def CallbackManager.ExecuteConnect (event : QueuedConnectEvent) : ExecEffect :=
  if CallbackManager.IsSocketValid event.socket then
    match event.socket with
    | none => noEffect
    | some socket =>
      let callbackInfo := socket.GetCallback CallbackEvent.Connect
      match callbackInfo.function with
      | none => noEffect
      | some _ =>
        { invocations := [{ event := CallbackEvent.Connect, smHandle := socket.m_smHandle,
                            userData := callbackInfo.data }],
          freedHandles := [], freedBuffers := [] }
  else noEffect

/-- void ExecuteDisconnect(const QueuedDisconnectEvent&): skips invalid
sockets and unset callbacks, invokes the Disconnect callback, then frees
the SourceMod handle when the AutoFreeHandle option is set and the handle
is nonzero. -/
def CallbackManager.ExecuteDisconnect (event : QueuedDisconnectEvent) : ExecEffect :=
  if CallbackManager.IsSocketValid event.socket then
    match event.socket with
    | none => noEffect
    | some socket =>
      let callbackInfo := socket.GetCallback CallbackEvent.Disconnect
      match callbackInfo.function with
      | none => noEffect
      | some _ =>
        { invocations := [{ event := CallbackEvent.Disconnect, smHandle := socket.m_smHandle,
                            userData := callbackInfo.data }],
          freedHandles :=
            if socket.GetOption SocketOption.AutoFreeHandle ≠ 0 ∧ socket.m_smHandle ≠ 0 then
              [socket.m_smHandle]
            else [],
          freedBuffers := [] }
  else noEffect

/-- void ExecuteError(const QueuedErrorEvent&): skips invalid sockets and
unset callbacks, invokes the Error callback, then frees the SourceMod
handle when the AutoFreeHandle option is set and the handle is nonzero. -/
def CallbackManager.ExecuteError (event : QueuedErrorEvent) : ExecEffect :=
  if CallbackManager.IsSocketValid event.socket then
    match event.socket with
    | none => noEffect
    | some socket =>
      let callbackInfo := socket.GetCallback CallbackEvent.Error
      match callbackInfo.function with
      | none => noEffect
      | some _ =>
        { invocations := [{ event := CallbackEvent.Error, smHandle := socket.m_smHandle,
                            userData := callbackInfo.data }],
          freedHandles :=
            if socket.GetOption SocketOption.AutoFreeHandle ≠ 0 ∧ socket.m_smHandle ≠ 0 then
              [socket.m_smHandle]
            else [],
          freedBuffers := [] }
  else noEffect

/-- void ExecuteReceive(const QueuedDataEvent&): invokes the Receive
callback when the socket is valid and the callback is set, and in every
case frees the event's heap buffer exactly once afterwards. -/
def CallbackManager.ExecuteReceive (event : QueuedDataEvent) : ExecEffect :=
  let invocations :=
    if CallbackManager.IsSocketValid event.socket then
      match event.socket with
      | none => []
      | some socket =>
        let callbackInfo := socket.GetCallback CallbackEvent.Receive
        match callbackInfo.function with
        | none => []
        | some _ =>
          [{ event := CallbackEvent.Receive, smHandle := socket.m_smHandle,
             userData := callbackInfo.data }]
    else []
  { invocations := invocations, freedHandles := [], freedBuffers := [event.data.id] }

/-- One event drained by ProcessPendingCallbacks, tagged with the channel
it came from. -/
inductive DrainedEvent where
  | connectEv (e : QueuedConnectEvent)
  | listenEv (e : QueuedListenEvent)
  | incomingEv (e : QueuedIncomingEvent)
  | dataEv (e : QueuedDataEvent)
  | disconnectEv (e : QueuedDisconnectEvent)
  | errorEv (e : QueuedErrorEvent)

/-- The fixed drain precedence of the source, as a channel number:
Connect -> Listen -> Incoming -> Data (Receive) -> Disconnect -> Error. -/
def DrainedEvent.channelIdx : DrainedEvent → Nat
  | DrainedEvent.connectEv _ => 0
  | DrainedEvent.listenEv _ => 1
  | DrainedEvent.incomingEv _ => 2
  | DrainedEvent.dataEv _ => 3
  | DrainedEvent.disconnectEv _ => 4
  | DrainedEvent.errorEv _ => 5

/-- The six event channels of the CallbackManager, through the
bounded-FIFO abstraction (the drain only pops, so capacities do not
appear here). -/
structure Queues where
  m_connectQueue : List QueuedConnectEvent
  m_listenQueue : List QueuedListenEvent
  m_incomingQueue : List QueuedIncomingEvent
  m_dataQueue : List QueuedDataEvent
  m_disconnectQueue : List QueuedDisconnectEvent
  m_errorQueue : List QueuedErrorEvent

def Queues.total (qs : Queues) : Nat :=
  qs.m_connectQueue.length + qs.m_listenQueue.length + qs.m_incomingQueue.length +
  qs.m_dataQueue.length + qs.m_disconnectQueue.length + qs.m_errorQueue.length

def Queues.allEmpty (qs : Queues) : Prop :=
  qs.m_connectQueue = [] ∧ qs.m_listenQueue = [] ∧ qs.m_incomingQueue = [] ∧
  qs.m_dataQueue = [] ∧ qs.m_disconnectQueue = [] ∧ qs.m_errorQueue = []

/-- Channel number j of the queue set is empty. -/
def Queues.chanEmpty (qs : Queues) : Nat → Prop
  | 0 => qs.m_connectQueue = []
  | 1 => qs.m_listenQueue = []
  | 2 => qs.m_incomingQueue = []
  | 3 => qs.m_dataQueue = []
  | 4 => qs.m_disconnectQueue = []
  | 5 => qs.m_errorQueue = []
  | _ => True

/-- try_dequeue on the connect channel (through the FIFO abstraction). -/
def dequeueConnect (qs : Queues) : Option (DrainedEvent × Queues) :=
  match qs.m_connectQueue with
  | [] => none
  | e :: rest => some (DrainedEvent.connectEv e, { qs with m_connectQueue := rest })

def dequeueListen (qs : Queues) : Option (DrainedEvent × Queues) :=
  match qs.m_listenQueue with
  | [] => none
  | e :: rest => some (DrainedEvent.listenEv e, { qs with m_listenQueue := rest })

def dequeueIncoming (qs : Queues) : Option (DrainedEvent × Queues) :=
  match qs.m_incomingQueue with
  | [] => none
  | e :: rest => some (DrainedEvent.incomingEv e, { qs with m_incomingQueue := rest })

def dequeueData (qs : Queues) : Option (DrainedEvent × Queues) :=
  match qs.m_dataQueue with
  | [] => none
  | e :: rest => some (DrainedEvent.dataEv e, { qs with m_dataQueue := rest })

def dequeueDisconnect (qs : Queues) : Option (DrainedEvent × Queues) :=
  match qs.m_disconnectQueue with
  | [] => none
  | e :: rest => some (DrainedEvent.disconnectEv e, { qs with m_disconnectQueue := rest })

def dequeueError (qs : Queues) : Option (DrainedEvent × Queues) :=
  match qs.m_errorQueue with
  | [] => none
  | e :: rest => some (DrainedEvent.errorEv e, { qs with m_errorQueue := rest })

/-- The running state of one round of the drain loop body: the events
executed so far this call, the processed counter, the queues, the
anyProcessed flag, and whether a budget break has fired. -/
structure RoundState where
  events : List DrainedEvent
  processed : Int
  queues : Queues
  anyProcessed : Bool
  budgetStop : Bool

/-- One channel block of the loop body:
if (m_xQueue.try_dequeue(event)) { ExecuteX(event); ++processed;
anyProcessed = true; if (processed >= maxCallbacks) break; }
A break is modelled by the budgetStop flag, which makes the remaining
blocks of the round no-ops. -/
def tryChannel (maxCallbacks : Int) (deq : Queues → Option (DrainedEvent × Queues))
    (st : RoundState) : RoundState :=
  if st.budgetStop then st
  else
    match deq st.queues with
    | some (e, qs') =>
      let processed := st.processed + 1
      { events := st.events ++ [e], processed := processed, queues := qs',
        anyProcessed := true, budgetStop := decide (maxCallbacks ≤ processed) }
    | none => st

/-- One full round of the while body, over the six channels in the fixed
order Connect, Listen, Incoming, Data, Disconnect, Error. -/
def drainRound (maxCallbacks processed : Int) (qs : Queues) : RoundState :=
  tryChannel maxCallbacks dequeueError
    (tryChannel maxCallbacks dequeueDisconnect
      (tryChannel maxCallbacks dequeueData
        (tryChannel maxCallbacks dequeueIncoming
          (tryChannel maxCallbacks dequeueListen
            (tryChannel maxCallbacks dequeueConnect
              { events := [], processed := processed, queues := qs,
                anyProcessed := false, budgetStop := false })))))

/-- The while (processed < maxCallbacks) loop.  The recursion is fuelled;
ProcessPendingCallbacks supplies fuel qs.total + 1, which the drain-loop
theorems show is never exhausted (every continuing round removes at least
one queued event). -/
def drainLoopFuel : Nat → Int → Int → Queues → List DrainedEvent × Queues
  | 0, _, _, qs => ([], qs)
  | fuel + 1, maxCallbacks, processed, qs =>
    if processed < maxCallbacks then
      let rr := drainRound maxCallbacks processed qs
      if rr.budgetStop then (rr.events, rr.queues)
      else if rr.anyProcessed then
        match drainLoopFuel fuel maxCallbacks rr.processed rr.queues with
        | (more, qsf) => (rr.events ++ more, qsf)
      else (rr.events, rr.queues)
    else ([], qs)

/-- void ProcessPendingCallbacks(): reads the CallbacksPerFrame budget
from the global options and drains the channels round-robin until the
budget is exhausted or a full round finds all channels empty. -/
def CallbackManager.ProcessPendingCallbacks (g : GlobalOptions) (qs : Queues) :
    List DrainedEvent × Queues :=
  let maxCallbacks := g.Get SocketOption.CallbacksPerFrame
  drainLoopFuel (qs.total + 1) maxCallbacks 0 qs

/-! ## TcpSocket (src/impl/socket/TcpSocket.cpp)

uv handles are descriptor identifiers (Nat); the atomic uv_tcp_t*
m_socket / m_acceptor pointers are Option Nat (none = nullptr). -/

structure TcpSocket where
  base : SocketBase
  m_socket : Option Nat
  m_acceptor : Option Nat
  m_localAddrSet : Bool
  m_localAddr : Option (String × Nat)
  m_remoteEndpointSet : Bool
  m_remoteEndpoint : RemoteEndpoint
  m_connectTimer : Option Nat

/-- bool Disconnect(): exchanges m_socket and m_acceptor to null, posts
one close per obtained live descriptor to the I/O thread (second
component: the descriptors whose close is posted), returns true. -/
def TcpSocket.Disconnect (t : TcpSocket) : TcpSocket × List Nat × Bool :=
  let socketToClose := t.m_socket
  let acceptorToClose := t.m_acceptor
  let t1 := { t with m_socket := none, m_acceptor := none }
  (t1, socketToClose.toList ++ acceptorToClose.toList, true)

/-- TcpSocket::~TcpSocket(): calls Disconnect(), then SocketBase's
destructor runs.  Neither step touches m_deleted. -/
def TcpSocket.destructor (t : TcpSocket) : TcpSocket :=
  let t1 := (TcpSocket.Disconnect t).1
  { t1 with base := t1.base.destructor }

/-- The consumer-thread destruction path of a socket handle:
SocketExtension::OnHandleDestroy -> SocketManager::DestroySocket (erases
the registry entry, deletes the wrapper) -> SocketWrapper::~SocketWrapper
(deletes the socket, running ~TcpSocket then ~SocketBase).  The state
mutations applied to the socket object before its memory is freed are
exactly the destructor chain; no step of the path calls MarkDeleted. -/
def destroySocketPath (t : TcpSocket) : TcpSocket :=
  TcpSocket.destructor t

/-- bool Bind(const char* hostname, uint16_t port, bool async): fails
immediately when a local address is already recorded; otherwise resolves
(resolveOk models the getaddrinfo / uv_getaddrinfo outcome) and, on the
synchronous path, records the address.  On the asynchronous path the
address is recorded later by the resolver callback on the I/O thread. -/
def TcpSocket.Bind (t : TcpSocket) (hostname : String) (port : Nat)
    (async resolveOk : Bool) : Bool × TcpSocket :=
  if t.m_localAddrSet then (false, t)
  else if async then (resolveOk, t)
  else if resolveOk then
    (true, { t with m_localAddr := some (hostname, port), m_localAddrSet := true })
  else (false, t)

/-- UV_ECANCELED (libuv: the operation was canceled because its handle
was closed). -/
def UV_ECANCELED : Int := -125

/-- uv_strerror, modelled as an injective rendering of the status code
(the engine only forwards the text). -/
def uv_strerror (status : Int) : String := "uv error " ++ toString status

/-- Events enqueued by a socket's I/O-thread completion handlers into the
CallbackManager channels (the payloads the claims observe). -/
inductive EnqueuedEvent where
  | connectEv (remoteEndpoint : RemoteEndpoint)
  | disconnectEv
  | listenEv (localEndpoint : RemoteEndpoint)
  | incomingEv (remoteEndpoint : RemoteEndpoint)
  | receiveEv (length : Nat) (sender : RemoteEndpoint)
  | errorEv (errorType : SocketError) (errorMsg : String)
deriving DecidableEq

/-- void CancelConnectTimeout(): stops and closes the armed connect
timer and clears the pointer; no-op when no timer is armed. -/
def TcpSocket.CancelConnectTimeout (t : TcpSocket) : TcpSocket :=
  { t with m_connectTimer := none }

/-- void OnConnect(uv_connect_t*, int status): cancels the connect
timeout, then: deleted sockets enqueue nothing; status 0 enqueues the
Connect event and starts receiving (third component); any other status
except UV_ECANCELED enqueues a ConnectError; UV_ECANCELED enqueues
nothing. -/
def TcpSocket.OnConnect (t : TcpSocket) (status : Int) :
    TcpSocket × List EnqueuedEvent × Bool :=
  let t1 := t.CancelConnectTimeout
  if t1.base.IsDeleted then (t1, [], false)
  else if status = 0 then
    let endpoint := if t1.m_remoteEndpointSet then t1.m_remoteEndpoint
                    else { address := "", port := 0 }
    (t1, [EnqueuedEvent.connectEv endpoint], true)
  else if status ≠ UV_ECANCELED then
    (t1, [EnqueuedEvent.errorEv SocketError.ConnectError (uv_strerror status)], false)
  else (t1, [], false)

/-- void OnConnectTimeout(uv_timer_t*): exchanges m_socket to null and
closes the obtained descriptor (which makes libuv complete the pending
connect request with UV_ECANCELED), enqueues the timeout ConnectError
unless the socket is deleted, and closes and clears the timer. -/
def TcpSocket.OnConnectTimeout (t : TcpSocket) : TcpSocket × List EnqueuedEvent :=
  let t1 := { t with m_socket := none }
  let events :=
    if !t1.base.IsDeleted then
      [EnqueuedEvent.errorEv SocketError.ConnectError "Connection timed out"]
    else []
  ({ t1 with m_connectTimer := none }, events)

/-- The events a TCP connect attempt enqueues once the connect request is
outstanding.  If the armed connect-timeout fires first (timedOut), the
timeout handler runs and the closed descriptor makes the connect
completion arrive with UV_ECANCELED; otherwise the completion arrives
with the given uv status. -/
def TcpSocket.connectAttemptEvents (t : TcpSocket) (timedOut : Bool) (status : Int) :
    List EnqueuedEvent :=
  if timedOut then
    let r1 := t.OnConnectTimeout
    let r2 := r1.1.OnConnect UV_ECANCELED
    r1.2 ++ r2.2.1
  else (t.OnConnect status).2.1

/-- The number of connect-outcome events (Connect, or Error of kind
ConnectError) in an event list. -/
def countConnectOutcome (evs : List EnqueuedEvent) : Nat :=
  evs.countP (fun e =>
    match e with
    | EnqueuedEvent.connectEv _ => true
    | EnqueuedEvent.errorEv SocketError.ConnectError _ => true
    | _ => false)

/-! ## UdpSocket (src/impl/socket/UdpSocket.cpp) -/

structure UdpSocket where
  base : SocketBase
  m_socket : Option Nat
  m_isConnected : Bool
  m_localAddrSet : Bool
  m_localAddr : Option (String × Nat)

/-- bool Disconnect(): exchanges m_socket to null, clears the connected
flag, posts one close for the obtained live descriptor, returns true. -/
def UdpSocket.Disconnect (u : UdpSocket) : UdpSocket × List Nat × Bool :=
  let socketToClose := u.m_socket
  let u1 := { u with m_socket := none, m_isConnected := false }
  (u1, socketToClose.toList, true)

/-- bool Bind(const char* hostname, uint16_t port, bool async): same
shape as the TCP bind. -/
def UdpSocket.Bind (u : UdpSocket) (hostname : String) (port : Nat)
    (async resolveOk : Bool) : Bool × UdpSocket :=
  if u.m_localAddrSet then (false, u)
  else if async then (resolveOk, u)
  else if resolveOk then
    (true, { u with m_localAddr := some (hostname, port), m_localAddrSet := true })
  else (false, u)

/-! ## UnixSocket (src/impl/socket/UnixSocket.cpp) -/

structure UnixSocket where
  base : SocketBase
  m_pipe : Option Nat
  m_acceptor : Option Nat
  m_path : String

/-- bool Bind(const char* path, uint16_t port, bool async):
if (m_path.empty()) m_path = path; return true. -/
def UnixSocket.Bind (s : UnixSocket) (path : String) (port : Nat) (async : Bool) :
    Bool × UnixSocket :=
  if s.m_path = "" then (true, { s with m_path := path })
  else (true, s)

/-! ## The descriptor-install CAS discipline (TcpSocket::InitSocket,
UdpSocket::InitSocket, and the acceptor install in Listen) -/

/-- The shared cell: the atomic descriptor pointer, plus the descriptors
closed so far. -/
structure CasCell where
  m_socket : Option Nat
  closedDescriptors : List Nat

/-- One InitSocket execution, reduced to its install discipline: the
caller has created the fresh descriptor newSocket, then runs
compare_exchange_strong(expected = nullptr, newSocket); the loser of the
race closes the descriptor it itself created and leaves the winner's
install in place. -/
def InitSocketInstall (st : CasCell) (newSocket : Nat) : CasCell :=
  match st.m_socket with
  | none => { st with m_socket := some newSocket }
  | some _ => { st with closedDescriptors := newSocket :: st.closedDescriptors }

/-- Two racing InitSocket calls on an empty cell, each with its own fresh
descriptor; firstWins selects which thread's CAS executes first (the
creates are thread-local, so the CAS order is the only interleaving
freedom). -/
def initSocketRace (d1 d2 : Nat) (firstWins : Bool) : CasCell :=
  let st0 : CasCell := { m_socket := none, closedDescriptors := [] }
  if firstWins then InitSocketInstall (InitSocketInstall st0 d1) d2
  else InitSocketInstall (InitSocketInstall st0 d2) d1

/-! ## Concrete sample states used by counterexamples and witnesses -/

/-- A callback table with every callback bound (function id 1, user data 42). -/
def sampleCallbacks : CallbackEvent → CallbackInfo :=
  fun _ => { function := some 1, data := 42 }

/-- A live TCP socket base: not deleted, handle 5, AutoFreeHandle = 1. -/
def sampleBase : SocketBase :=
  { m_type := SocketType.Tcp, m_callbacks := sampleCallbacks, m_pendingOptions := [],
    m_deleted := false,
    m_options := fun i => if i = SocketOption.AutoFreeHandle.index then 1 else 0,
    m_smHandle := 5 }

def sampleEndpoint : RemoteEndpoint := { address := "203.0.113.7", port := 80 }

/-- A live TCP socket with an open descriptor and an outstanding connect
attempt (timer not armed). -/
def sampleTcp : TcpSocket :=
  { base := sampleBase, m_socket := some 10, m_acceptor := none,
    m_localAddrSet := false, m_localAddr := none, m_remoteEndpointSet := false,
    m_remoteEndpoint := { address := "", port := 0 }, m_connectTimer := none }

/-- A Unix socket whose path is already recorded. -/
def sampleUnix : UnixSocket :=
  { base := sampleBase, m_pipe := none, m_acceptor := none, m_path := "/tmp/srv.sock" }

/-- A queue set with one pending Connect event and one pending Error
event. -/
def sampleQueues : Queues :=
  { m_connectQueue := [{ socket := none, remoteEndpoint := sampleEndpoint }],
    m_listenQueue := [], m_incomingQueue := [], m_dataQueue := [],
    m_disconnectQueue := [],
    m_errorQueue := [{ socket := none, errorType := SocketError.ConnectError,
                       errorMsg := "boom" }] }

/-- A live UDP socket with an open descriptor. -/
def sampleUdp : UdpSocket :=
  { base := sampleBase, m_socket := some 12, m_isConnected := true,
    m_localAddrSet := false, m_localAddr := none }

/-- A TCP socket whose local address is already recorded. -/
def sampleTcpBound : TcpSocket :=
  { sampleTcp with m_localAddrSet := true }

/-- A UDP socket whose local address is already recorded. -/
def sampleUdpBound : UdpSocket :=
  { sampleUdp with m_socket := none, m_isConnected := false, m_localAddrSet := true }

/-- Proof-support invariant for one round of the drain: after the round
has handled the channels with numbers below j, starting from queues qs0
and processed counter p0 under budget m, the state satisfies the budget
accounting, the per-round channel ordering, the event/total accounting,
and the empty-round detection facts. -/
def RoundInvUpTo (m p0 : Int) (qs0 : Queues) (j : Nat) (st : RoundState) : Prop :=
  st.processed = p0 + st.events.length ∧
  (st.budgetStop = false → st.processed < m) ∧
  (st.budgetStop = true → st.processed = m) ∧
  List.Chain' (· < ·) (st.events.map DrainedEvent.channelIdx) ∧
  (∀ e ∈ st.events, e.channelIdx < j) ∧
  st.queues.total + st.events.length = qs0.total ∧
  (st.anyProcessed = false →
    st.budgetStop = false ∧ st.events = [] ∧ st.queues = qs0 ∧
    ∀ i, i < j → qs0.chanEmpty i) ∧
  (st.anyProcessed = true → st.events ≠ [])

/-! ## Theorems -/

/-- Masked indices below the modulus are equal exactly when their unwrapped
counters are equal, provided the counters are less than one modulus apart. -/
theorem mod_eq_iff_eq_of_sub_lt {n a b : Nat} (hab : a ≤ b) (h : b - a < n) :
    a % n = b % n ↔ a = b := by
  constructor
  · intro hm
    have hd : n ∣ b - a := (Nat.modEq_iff_dvd' hab).mp hm
    have hz : b - a = 0 := Nat.eq_zero_of_dvd_of_lt hd h
    omega
  · intro h
    rw [h]

/-- The mask operation of the source equals reduction modulo the
power-of-two capacity. -/
theorem mask_eq_mod (x k : Nat) : x &&& (2 ^ k - 1) = x % 2 ^ k :=
  Nat.and_pow_two_sub_one_eq_mod x k

/-- One try_enqueue step refines one specPush step and preserves the
coupling invariant. -/
theorem try_enqueue_step {T : Type} {k : Nat} {q : SPSCQueue T} {l : List T}
    (hinv : QueueInv k q l) (x : T) :
    (q.try_enqueue x).1 = (specPush (2 ^ k) l x).1 ∧
    QueueInv k (q.try_enqueue x).2 (specPush (2 ^ k) l x).2 := by
  obtain ⟨hcap, hk, H, Tl, CH, CT, hh, ht, hch, hct, hHT, hlen, hbound, hCHH, hTCH,
    hHCT, hCTT, hbuf⟩ := hinv
  have hN2 : 2 ≤ 2 ^ k := by
    calc 2 = 2 ^ 1 := by norm_num
    _ ≤ 2 ^ k := Nat.pow_le_pow_right (by norm_num) hk
  have hnext : (q.m_tail + 1) &&& q.kMask = (Tl + 1) % 2 ^ k := by
    rw [SPSCQueue.kMask, hcap, ht, mask_eq_mod, Nat.mod_add_mod]
  simp only [SPSCQueue.try_enqueue]
  rw [hnext, hch, hh]
  by_cases hfull : l.length = 2 ^ k - 1
  · -- the ring is full: try_enqueue fails, specPush fails
    have hspec : specPush (2 ^ k) l x = (false, l) := by simp [specPush, hfull]
    have hCHeq : CH = H := by omega
    have hTl1 : Tl + 1 = H + 2 ^ k := by omega
    have hnextH : (Tl + 1) % 2 ^ k = H % 2 ^ k := by rw [hTl1, Nat.add_mod_right]
    rw [hspec, hCHeq, if_pos hnextH, if_pos hnextH]
    refine ⟨rfl, hcap, hk, H, Tl, H, CT, rfl, ht, rfl, hct, hHT, hlen, hbound,
      le_refl H, hbound, hHCT, hCTT, fun i hi => hbuf i hi⟩
  · -- not full: try_enqueue succeeds and appends
    have hspec : specPush (2 ^ k) l x = (true, l ++ [x]) := by simp [specPush, hfull]
    have hlt : l.length < 2 ^ k - 1 := by omega
    have hne : ¬((Tl + 1) % 2 ^ k = H % 2 ^ k) := by
      intro hmm
      have : H = Tl + 1 := (mod_eq_iff_eq_of_sub_lt (by omega) (by omega)).mp hmm.symm
      omega
    rw [hspec]
    have hgoal : ∀ CHn : Nat, CHn ≤ H → Tl + 1 - CHn ≤ 2 ^ k - 1 →
        QueueInv k
          { Capacity := q.Capacity,
            m_buffer := Function.update q.m_buffer q.m_tail (some x),
            m_tail := (Tl + 1) % 2 ^ k, m_cachedHead := CHn % 2 ^ k,
            m_head := H % 2 ^ k, m_cachedTail := q.m_cachedTail } (l ++ [x]) := by
      intro CHn hle hsub
      refine ⟨hcap, hk, H, Tl + 1, CHn, CT, rfl, rfl, rfl, hct, by omega, ?_, by omega,
        hle, hsub, hHCT, by omega, ?_⟩
      · simp only [List.length_append, List.length_cons, List.length_nil]
        omega
      · intro i hi
        simp only [List.length_append, List.length_cons, List.length_nil] at hi
        rcases Nat.lt_or_ge i l.length with hil | hil
        · have hneq : (H + i) % 2 ^ k ≠ q.m_tail := by
            rw [ht]
            intro hmm
            have : H + i = Tl := (mod_eq_iff_eq_of_sub_lt (by omega) (by omega)).mp hmm
            omega
          show Function.update q.m_buffer q.m_tail (some x) ((H + i) % 2 ^ k) = (l ++ [x])[i]?
          rw [Function.update_noteq hneq, hbuf i hil, List.getElem?_append_left hil]
        · have hieq : i = l.length := by omega
          subst hieq
          have hsl : (H + l.length) % 2 ^ k = q.m_tail := by
            rw [ht]
            congr 1
            omega
          show Function.update q.m_buffer q.m_tail (some x) ((H + l.length) % 2 ^ k)
            = (l ++ [x])[l.length]?
          rw [hsl, Function.update_same, List.getElem?_concat_length]
    by_cases hc : (Tl + 1) % 2 ^ k = CH % 2 ^ k
    · rw [if_pos hc, if_neg hne]
      exact ⟨rfl, hgoal H (le_refl H) (by omega)⟩
    · rw [if_neg hc]
      have hsub : Tl + 1 - CH ≤ 2 ^ k - 1 := by
        by_contra hcon
        have h1 : Tl + 1 = CH + 2 ^ k := by omega
        rw [h1, Nat.add_mod_right] at hc
        exact hc rfl
      rw [if_neg hc]
      exact ⟨rfl, hgoal CH hCHH hsub⟩

/-- One try_dequeue step refines one specPop step and preserves the
coupling invariant. -/
theorem try_dequeue_step {T : Type} {k : Nat} {q : SPSCQueue T} {l : List T}
    (hinv : QueueInv k q l) :
    q.try_dequeue.1 = (specPop l).1 ∧
    QueueInv k q.try_dequeue.2 (specPop l).2 := by
  obtain ⟨hcap, hk, H, Tl, CH, CT, hh, ht, hch, hct, hHT, hlen, hbound, hCHH, hTCH,
    hHCT, hCTT, hbuf⟩ := hinv
  have hN2 : 2 ≤ 2 ^ k := by
    calc 2 = 2 ^ 1 := by norm_num
    _ ≤ 2 ^ k := Nat.pow_le_pow_right (by norm_num) hk
  have hnexth : (q.m_head + 1) &&& q.kMask = (H + 1) % 2 ^ k := by
    rw [SPSCQueue.kMask, hcap, hh, mask_eq_mod, Nat.mod_add_mod]
  simp only [SPSCQueue.try_dequeue]
  rw [hnexth, hct, hch, ht, hh]
  match l, hlen with
  | [], hlen =>
    have hHTl : Tl = H := by simp at hlen; omega
    have hCT0 : CT = H := by omega
    rw [hCT0, hHTl, if_pos rfl, if_pos rfl]
    refine ⟨rfl, hcap, hk, H, H, CH, H, rfl, rfl, rfl, rfl, le_refl H,
      by simp [specPop], by omega, hCHH, by omega, le_refl H, le_refl H, ?_⟩
    intro i hi
    simp [specPop] at hi
  | x :: xs, hlen =>
    have hlpos : 0 < Tl - H := by simp at hlen ⊢; omega
    have hne_out : ¬(H % 2 ^ k = Tl % 2 ^ k) := by
      intro hmm
      have : H = Tl := (mod_eq_iff_eq_of_sub_lt (by omega) (by omega)).mp hmm
      omega
    have hitem : q.m_buffer (H % 2 ^ k) = some x := by
      have h0 := hbuf 0 (by simp)
      simpa using h0
    have hgoal : ∀ CTn : Nat, H + 1 ≤ CTn → CTn ≤ Tl →
        QueueInv k
          { Capacity := q.Capacity,
            m_buffer := Function.update q.m_buffer (H % 2 ^ k) none,
            m_tail := Tl % 2 ^ k, m_cachedHead := CH % 2 ^ k,
            m_head := (H + 1) % 2 ^ k, m_cachedTail := CTn % 2 ^ k } xs := by
      intro CTn hge hle
      have hlx : Tl - H = xs.length + 1 := by simpa using hlen
      refine ⟨hcap, hk, H + 1, Tl, CH, CTn, rfl, rfl, rfl, rfl, by omega, by omega,
        by omega, by omega, hTCH, hge, hle, ?_⟩
      intro i hi
      have hneq : (H + 1 + i) % 2 ^ k ≠ H % 2 ^ k := by
        intro hmm
        have : H = H + 1 + i := (mod_eq_iff_eq_of_sub_lt (by omega) (by omega)).mp hmm.symm
        omega
      show Function.update q.m_buffer (H % 2 ^ k) none ((H + 1 + i) % 2 ^ k) = xs[i]?
      rw [Function.update_noteq hneq]
      have hb := hbuf (i + 1) (by simp; omega)
      have harg : H + (i + 1) = H + 1 + i := by omega
      rw [harg] at hb
      simpa using hb
    by_cases hc : H % 2 ^ k = CT % 2 ^ k
    · rw [if_pos hc, if_neg hne_out]
      exact ⟨by simp [specPop, hitem], hgoal Tl (by omega) (le_refl Tl)⟩
    · rw [if_neg hc, if_neg hc]
      have hHCTlt : H + 1 ≤ CT := by
        rcases Nat.lt_or_ge H CT with h1 | h1
        · omega
        · have hEq : H = CT := by omega
          rw [hEq] at hc
          exact absurd rfl hc
      exact ⟨by simp [specPop, hitem], hgoal CT hHCTlt hCTT⟩

/-- Running any operation sequence against the queue matches running it
against the specification FIFO, step for step. -/
theorem runQueue_refines {T : Type} {k : Nat} (ops : List (QueueOp T)) :
    ∀ {q : SPSCQueue T} {l : List T}, QueueInv k q l →
    (runQueue q ops).1 = (runSpec (2 ^ k) l ops).1 ∧
    QueueInv k (runQueue q ops).2 (runSpec (2 ^ k) l ops).2 := by
  induction ops with
  | nil =>
    intro q l h
    exact ⟨rfl, h⟩
  | cons op ops ih =>
    intro q l h
    cases op with
    | push x =>
      have hstep := try_enqueue_step h x
      have hrest := ih hstep.2
      simp only [runQueue, runSpec]
      exact ⟨by rw [hstep.1, hrest.1], hrest.2⟩
    | pop =>
      have hstep := try_dequeue_step h
      have hrest := ih hstep.2
      simp only [runQueue, runSpec]
      exact ⟨by rw [hstep.1, hrest.1], hrest.2⟩

/-- The default-constructed queue holds the empty FIFO. -/
theorem mkEmpty_inv {T : Type} {k : Nat} (hk : 1 ≤ k) :
    QueueInv k (SPSCQueue.mkEmpty (2 ^ k) : SPSCQueue T) [] := by
  refine ⟨rfl, hk, 0, 0, 0, 0, ?_, ?_, ?_, ?_, le_refl 0, rfl, by omega, le_refl 0,
    by omega, le_refl 0, le_refl 0, ?_⟩
  · simp [SPSCQueue.mkEmpty]
  · simp [SPSCQueue.mkEmpty]
  · simp [SPSCQueue.mkEmpty]
  · simp [SPSCQueue.mkEmpty]
  · intro i hi
    simp at hi

/-- The specification FIFO never holds more than N - 1 items. -/
theorem runSpec_length_le {T : Type} (N : Nat) (ops : List (QueueOp T)) :
    ∀ l : List T, l.length ≤ N - 1 → ((runSpec N l ops).2).length ≤ N - 1 := by
  induction ops with
  | nil =>
    intro l h
    exact h
  | cons op ops ih =>
    intro l h
    cases op with
    | push x =>
      simp only [runSpec]
      by_cases hf : l.length = N - 1
      · have hp : specPush N l x = (false, l) := by simp [specPush, hf]
        rw [hp]
        exact ih l h
      · have hp : specPush N l x = (true, l ++ [x]) := by simp [specPush, hf]
        rw [hp]
        refine ih (l ++ [x]) ?_
        simp only [List.length_append, List.length_cons, List.length_nil]
        omega
    | pop =>
      simp only [runSpec]
      cases l with
      | nil =>
        exact ih [] (by simpa using h)
      | cons y ys =>
        refine ih ys ?_
        simp at h ⊢
        omega

/-- C1: for every sequence of try_enqueue/try_pop operations by one
producer and one consumer on an SPSCQueue with template capacity N = 2^k,
the visible results (each try_enqueue's bool, each try_dequeue's item)
coincide with those of a bounded FIFO of usable capacity N - 1:
try_enqueue returns false exactly when N - 1 items are held, at most
N - 1 items are ever held, and try_dequeue returns items in exactly the
order they were enqueued (the FIFO's own order). -/
theorem spsc_bounded_fifo (k : Nat) (hk : 1 ≤ k) (ops : List (QueueOp Nat)) :
    (runQueue (SPSCQueue.mkEmpty (2 ^ k)) ops).1 = (runSpec (2 ^ k) [] ops).1 ∧
    ((runSpec (2 ^ k) ([] : List Nat) ops).2).length ≤ 2 ^ k - 1 ∧
    QueueInv k (runQueue (SPSCQueue.mkEmpty (2 ^ k)) ops).2 (runSpec (2 ^ k) [] ops).2 := by
  have h := runQueue_refines ops (mkEmpty_inv hk)
  exact ⟨h.1, runSpec_length_le (2 ^ k) ops [] (by simp), h.2⟩

/-- Witness for C1 at k = 1 (capacity 2, one usable slot) on a concrete
operation sequence: push succeeds, a second push on the full ring fails,
pops return the items in order, then the freed slot is reusable. -/
theorem spsc_bounded_fifo_witness :
    1 ≤ 1 ∧
    ((runQueue (SPSCQueue.mkEmpty (2 ^ 1))
        [QueueOp.push 7, QueueOp.push 8, QueueOp.pop, QueueOp.pop, QueueOp.push 9,
         QueueOp.pop]).1 =
      (runSpec (2 ^ 1) []
        [QueueOp.push 7, QueueOp.push 8, QueueOp.pop, QueueOp.pop, QueueOp.push 9,
         QueueOp.pop]).1 ∧
    ((runSpec (2 ^ 1) ([] : List Nat)
        [QueueOp.push 7, QueueOp.push 8, QueueOp.pop, QueueOp.pop, QueueOp.push 9,
         QueueOp.pop]).2).length ≤ 2 ^ 1 - 1 ∧
    QueueInv 1
      (runQueue (SPSCQueue.mkEmpty (2 ^ 1))
        [QueueOp.push 7, QueueOp.push 8, QueueOp.pop, QueueOp.pop, QueueOp.push 9,
         QueueOp.pop]).2
      (runSpec (2 ^ 1) []
        [QueueOp.push 7, QueueOp.push 8, QueueOp.pop, QueueOp.pop, QueueOp.push 9,
         QueueOp.pop]).2) :=
  ⟨by decide,
   spsc_bounded_fifo 1 (by decide)
     [QueueOp.push 7, QueueOp.push 8, QueueOp.pop, QueueOp.pop, QueueOp.push 9,
      QueueOp.pop]⟩

/-- The m_connectQueue dequeue takes the front of channel 0 and nothing else. -/
theorem dequeueConnect_facts :
    (∀ qs e qs', dequeueConnect qs = some (e, qs') →
      DrainedEvent.channelIdx e = 0 ∧ qs'.total + 1 = qs.total) ∧
    ∀ qs, dequeueConnect qs = none → qs.chanEmpty 0 := by
  constructor
  · intro qs e qs' h
    cases hq : qs.m_connectQueue with
    | nil => simp [dequeueConnect, hq] at h
    | cons a rest =>
      simp only [dequeueConnect, hq, Option.some.injEq, Prod.mk.injEq] at h
      obtain ⟨he, hqs⟩ := h
      subst he
      subst hqs
      refine ⟨rfl, ?_⟩
      simp [Queues.total, hq]
      omega
  · intro qs h
    cases hq : qs.m_connectQueue with
    | nil => exact hq
    | cons a rest => simp [dequeueConnect, hq] at h


/-- The m_listenQueue dequeue takes the front of channel 1 and nothing else. -/
theorem dequeueListen_facts :
    (∀ qs e qs', dequeueListen qs = some (e, qs') →
      DrainedEvent.channelIdx e = 1 ∧ qs'.total + 1 = qs.total) ∧
    ∀ qs, dequeueListen qs = none → qs.chanEmpty 1 := by
  constructor
  · intro qs e qs' h
    cases hq : qs.m_listenQueue with
    | nil => simp [dequeueListen, hq] at h
    | cons a rest =>
      simp only [dequeueListen, hq, Option.some.injEq, Prod.mk.injEq] at h
      obtain ⟨he, hqs⟩ := h
      subst he
      subst hqs
      refine ⟨rfl, ?_⟩
      simp [Queues.total, hq]
      omega
  · intro qs h
    cases hq : qs.m_listenQueue with
    | nil => exact hq
    | cons a rest => simp [dequeueListen, hq] at h


/-- The m_incomingQueue dequeue takes the front of channel 2 and nothing else. -/
theorem dequeueIncoming_facts :
    (∀ qs e qs', dequeueIncoming qs = some (e, qs') →
      DrainedEvent.channelIdx e = 2 ∧ qs'.total + 1 = qs.total) ∧
    ∀ qs, dequeueIncoming qs = none → qs.chanEmpty 2 := by
  constructor
  · intro qs e qs' h
    cases hq : qs.m_incomingQueue with
    | nil => simp [dequeueIncoming, hq] at h
    | cons a rest =>
      simp only [dequeueIncoming, hq, Option.some.injEq, Prod.mk.injEq] at h
      obtain ⟨he, hqs⟩ := h
      subst he
      subst hqs
      refine ⟨rfl, ?_⟩
      simp [Queues.total, hq]
      omega
  · intro qs h
    cases hq : qs.m_incomingQueue with
    | nil => exact hq
    | cons a rest => simp [dequeueIncoming, hq] at h


/-- The m_dataQueue dequeue takes the front of channel 3 and nothing else. -/
theorem dequeueData_facts :
    (∀ qs e qs', dequeueData qs = some (e, qs') →
      DrainedEvent.channelIdx e = 3 ∧ qs'.total + 1 = qs.total) ∧
    ∀ qs, dequeueData qs = none → qs.chanEmpty 3 := by
  constructor
  · intro qs e qs' h
    cases hq : qs.m_dataQueue with
    | nil => simp [dequeueData, hq] at h
    | cons a rest =>
      simp only [dequeueData, hq, Option.some.injEq, Prod.mk.injEq] at h
      obtain ⟨he, hqs⟩ := h
      subst he
      subst hqs
      refine ⟨rfl, ?_⟩
      simp [Queues.total, hq]
      omega
  · intro qs h
    cases hq : qs.m_dataQueue with
    | nil => exact hq
    | cons a rest => simp [dequeueData, hq] at h


/-- The m_disconnectQueue dequeue takes the front of channel 4 and nothing else. -/
theorem dequeueDisconnect_facts :
    (∀ qs e qs', dequeueDisconnect qs = some (e, qs') →
      DrainedEvent.channelIdx e = 4 ∧ qs'.total + 1 = qs.total) ∧
    ∀ qs, dequeueDisconnect qs = none → qs.chanEmpty 4 := by
  constructor
  · intro qs e qs' h
    cases hq : qs.m_disconnectQueue with
    | nil => simp [dequeueDisconnect, hq] at h
    | cons a rest =>
      simp only [dequeueDisconnect, hq, Option.some.injEq, Prod.mk.injEq] at h
      obtain ⟨he, hqs⟩ := h
      subst he
      subst hqs
      refine ⟨rfl, ?_⟩
      simp [Queues.total, hq]
      omega
  · intro qs h
    cases hq : qs.m_disconnectQueue with
    | nil => exact hq
    | cons a rest => simp [dequeueDisconnect, hq] at h


/-- The m_errorQueue dequeue takes the front of channel 5 and nothing else. -/
theorem dequeueError_facts :
    (∀ qs e qs', dequeueError qs = some (e, qs') →
      DrainedEvent.channelIdx e = 5 ∧ qs'.total + 1 = qs.total) ∧
    ∀ qs, dequeueError qs = none → qs.chanEmpty 5 := by
  constructor
  · intro qs e qs' h
    cases hq : qs.m_errorQueue with
    | nil => simp [dequeueError, hq] at h
    | cons a rest =>
      simp only [dequeueError, hq, Option.some.injEq, Prod.mk.injEq] at h
      obtain ⟨he, hqs⟩ := h
      subst he
      subst hqs
      refine ⟨rfl, ?_⟩
      simp [Queues.total, hq]
      omega
  · intro qs h
    cases hq : qs.m_errorQueue with
    | nil => exact hq
    | cons a rest => simp [dequeueError, hq] at h

/-- One channel block of the round preserves the round invariant,
advancing the channel cursor. -/
theorem tryChannel_inv {m p0 : Int} {qs0 : Queues} {j : Nat}
    {deq : Queues → Option (DrainedEvent × Queues)} {st : RoundState}
    (hsome : ∀ qs e qs', deq qs = some (e, qs') →
      DrainedEvent.channelIdx e = j ∧ qs'.total + 1 = qs.total)
    (hnone : ∀ qs, deq qs = none → qs.chanEmpty j)
    (hinv : RoundInvUpTo m p0 qs0 j st) :
    RoundInvUpTo m p0 qs0 (j + 1) (tryChannel m deq st) := by
  obtain ⟨h1, h2, h3, h4, h5, h6, h7, h8⟩ := hinv
  by_cases hstop : st.budgetStop = true
  · have hred : tryChannel m deq st = st := by
      unfold tryChannel
      rw [if_pos hstop]
    rw [hred]
    refine ⟨h1, h2, h3, h4, fun e he => Nat.lt_succ_of_lt (h5 e he), h6, ?_, h8⟩
    intro ha
    exact (Bool.false_ne_true ((h7 ha).1.symm.trans hstop)).elim
  · cases hdeq : deq st.queues with
    | none =>
      have hred : tryChannel m deq st = st := by
        unfold tryChannel
        rw [if_neg hstop, hdeq]
      rw [hred]
      refine ⟨h1, h2, h3, h4, fun e he => Nat.lt_succ_of_lt (h5 e he), h6, ?_, h8⟩
      intro ha
      obtain ⟨hb, hev, hqq, hce⟩ := h7 ha
      refine ⟨hb, hev, hqq, ?_⟩
      intro i hi
      rcases Nat.lt_or_ge i j with hij | hij
      · exact hce i hij
      · have hieq : i = j := by omega
        subst hieq
        exact hqq ▸ hnone st.queues hdeq
    | some p =>
      obtain ⟨e, qs'⟩ := p
      obtain ⟨hej, hqt⟩ := hsome st.queues e qs' hdeq
      have hred : tryChannel m deq st =
          { events := st.events ++ [e], processed := st.processed + 1, queues := qs',
            anyProcessed := true, budgetStop := decide (m ≤ st.processed + 1) } := by
        unfold tryChannel
        rw [if_neg hstop, hdeq]
      rw [hred]
      refine ⟨?_, ?_, ?_, ?_, ?_, ?_, ?_, ?_⟩
      · show st.processed + 1 = p0 + ((st.events ++ [e]).length : Int)
        simp only [List.length_append, List.length_cons, List.length_nil]
        push_cast
        omega
      · show decide (m ≤ st.processed + 1) = false → st.processed + 1 < m
        intro hb
        have hb2 : ¬(m ≤ st.processed + 1) := by simpa using hb
        omega
      · show decide (m ≤ st.processed + 1) = true → st.processed + 1 = m
        intro hb
        have hb2 : m ≤ st.processed + 1 := by simpa using hb
        have hbf : st.budgetStop = false := by simpa using hstop
        have := h2 hbf
        omega
      · show List.Chain' (· < ·) ((st.events ++ [e]).map DrainedEvent.channelIdx)
        rw [List.map_append]
        refine List.chain'_append.mpr ⟨h4, by simp, ?_⟩
        intro x hx y hy
        simp only [List.map_cons, List.map_nil, List.head?_cons, Option.mem_def,
          Option.some.injEq] at hy
        subst hy
        have hxmem : x ∈ st.events.map DrainedEvent.channelIdx :=
          List.mem_of_mem_getLast? hx
        obtain ⟨e2, he2, hxe⟩ := List.mem_map.mp hxmem
        rw [← hxe, hej]
        exact h5 e2 he2
      · show ∀ e2 ∈ st.events ++ [e], DrainedEvent.channelIdx e2 < j + 1
        intro e2 he2
        rcases List.mem_append.mp he2 with hm | hm
        · exact Nat.lt_succ_of_lt (h5 e2 hm)
        · have he2e : e2 = e := by simpa using hm
          subst he2e
          rw [hej]
          exact Nat.lt_succ_self j
      · show qs'.total + (st.events ++ [e]).length = qs0.total
        simp only [List.length_append, List.length_cons, List.length_nil]
        omega
      · intro ha
        simp at ha
      · intro _
        simp

/-- A full round starting under budget satisfies the round invariant at
channel cursor 6. -/
theorem drainRound_inv (m p0 : Int) (qs : Queues) (hp : p0 < m) :
    RoundInvUpTo m p0 qs 6 (drainRound m p0 qs) := by
  have base : RoundInvUpTo m p0 qs 0
      { events := [], processed := p0, queues := qs, anyProcessed := false,
        budgetStop := false } := by
    refine ⟨by simp, fun _ => hp, by simp, by simp, by simp, by simp, ?_, by simp⟩
    intro _
    exact ⟨rfl, rfl, rfl, fun i hi => absurd hi (Nat.not_lt_zero i)⟩
  exact tryChannel_inv dequeueError_facts.1 dequeueError_facts.2
    (tryChannel_inv dequeueDisconnect_facts.1 dequeueDisconnect_facts.2
      (tryChannel_inv dequeueData_facts.1 dequeueData_facts.2
        (tryChannel_inv dequeueIncoming_facts.1 dequeueIncoming_facts.2
          (tryChannel_inv dequeueListen_facts.1 dequeueListen_facts.2
            (tryChannel_inv dequeueConnect_facts.1 dequeueConnect_facts.2 base)))))

/-- If the first six channels are empty, the queue set is empty. -/
theorem allEmpty_of_chanEmpty {qs : Queues} (h : ∀ i, i < 6 → qs.chanEmpty i) :
    qs.allEmpty :=
  ⟨h 0 (by omega), h 1 (by omega), h 2 (by omega), h 3 (by omega), h 4 (by omega),
   h 5 (by omega)⟩

/-- The fuelled drain loop, with adequate fuel and under budget, executes
at most the remaining budget, leaves all channels empty whenever it stops
short of the budget, and produces its events as consecutive rounds each
strictly increasing in the fixed channel order. -/
theorem drainLoopFuel_spec (fuel : Nat) :
    ∀ (m p : Int) (qs : Queues), qs.total < fuel → p < m →
    (p + ((drainLoopFuel fuel m p qs).1).length ≤ m) ∧
    ((p + ((drainLoopFuel fuel m p qs).1).length < m) →
       ((drainLoopFuel fuel m p qs).2).allEmpty) ∧
    (∃ rounds : List (List DrainedEvent),
       (drainLoopFuel fuel m p qs).1 = rounds.join ∧
       ∀ rd ∈ rounds, List.Chain' (· < ·) (rd.map DrainedEvent.channelIdx)) := by
  induction fuel with
  | zero =>
    intro m p qs hf hp
    exact absurd hf (Nat.not_lt_zero _)
  | succ fuel ih =>
    intro m p qs hf hp
    obtain ⟨h1, h2, h3, h4, h5, h6, h7, h8⟩ := drainRound_inv m p qs hp
    simp only [drainLoopFuel]
    rw [if_pos hp]
    by_cases hstop : (drainRound m p qs).budgetStop = true
    · rw [if_pos hstop]
      simp only
      have hpm := h3 hstop
      refine ⟨by omega, by omega, [(drainRound m p qs).events], by simp, ?_⟩
      intro rd hrd
      have hrde : rd = (drainRound m p qs).events := by simpa using hrd
      subst hrde
      exact h4
    · rw [if_neg hstop]
      by_cases hany : (drainRound m p qs).anyProcessed = true
      · rw [if_pos hany]
        have hne := h8 hany
        have hlen1 : 1 ≤ (drainRound m p qs).events.length := by
          cases hev : (drainRound m p qs).events with
          | nil => exact absurd hev hne
          | cons a l => simp [hev]
        have hfts : (drainRound m p qs).queues.total < fuel := by omega
        have hplt : (drainRound m p qs).processed < m := h2 (by simpa using hstop)
        have hrec := ih m (drainRound m p qs).processed (drainRound m p qs).queues hfts hplt
        cases hres : drainLoopFuel fuel m (drainRound m p qs).processed
            (drainRound m p qs).queues with
        | mk more qsf =>
          rw [hres] at hrec
          simp only at hrec ⊢
          obtain ⟨hr1, hr2, rounds, hrj, hrc⟩ := hrec
          refine ⟨?_, ?_, (drainRound m p qs).events :: rounds, ?_, ?_⟩
          · simp only [List.length_append]
            push_cast
            omega
          · intro hlt
            simp only [List.length_append] at hlt
            push_cast at hlt
            exact hr2 (by omega)
          · simp [hrj]
          · intro rd hrd
            rcases List.mem_cons.mp hrd with hm | hm
            · subst hm
              exact h4
            · exact hrc rd hm
      · rw [if_neg hany]
        simp only
        obtain ⟨hb, hev, hqq, hce⟩ := h7 (by simpa using hany)
        refine ⟨?_, ?_, [], ?_, ?_⟩
        · rw [hev]
          simp
          omega
        · intro _
          show ((drainRound m p qs).queues).allEmpty
          rw [hqq]
          exact allEmpty_of_chanEmpty hce
        · rw [hev]
          simp
        · intro rd hrd
          simp at hrd

/-- C4: every call to ProcessPendingCallbacks executes at most
CallbacksPerFrame callbacks (the global option, whose default is 1 when
never set), dequeues at most one event per channel per round in the
fixed order Connect, Listen, Incoming, Receive, Disconnect, Error (the
executed sequence splits into rounds with strictly increasing channel
numbers), and returns as soon as the budget is exhausted or one full
round finds all six channels empty (so whenever it stops short of the
budget, every channel is empty). -/
theorem process_pending_callbacks_budget_order (g : GlobalOptions) (qs : Queues) :
    ((CallbackManager.ProcessPendingCallbacks g qs).1).length ≤
      (g.Get SocketOption.CallbacksPerFrame).toNat ∧
    (((CallbackManager.ProcessPendingCallbacks g qs).1).length <
        (g.Get SocketOption.CallbacksPerFrame).toNat →
      ((CallbackManager.ProcessPendingCallbacks g qs).2).allEmpty) ∧
    (∃ rounds : List (List DrainedEvent),
       (CallbackManager.ProcessPendingCallbacks g qs).1 = rounds.join ∧
       ∀ rd ∈ rounds, List.Chain' (· < ·) (rd.map DrainedEvent.channelIdx)) ∧
    GlobalOptions.Get g_GlobalOptionsInit SocketOption.CallbacksPerFrame = 1 := by
  have hdef : CallbackManager.ProcessPendingCallbacks g qs =
      drainLoopFuel (qs.total + 1) (g.Get SocketOption.CallbacksPerFrame) 0 qs := rfl
  by_cases hpos : 0 < g.Get SocketOption.CallbacksPerFrame
  · have h := drainLoopFuel_spec (qs.total + 1) (g.Get SocketOption.CallbacksPerFrame)
      0 qs (by omega) hpos
    rw [hdef]
    refine ⟨?_, ?_, h.2.2, rfl⟩
    · have h1 := h.1
      omega
    · intro hlt
      exact h.2.1 (by omega)
  · have hz : drainLoopFuel (qs.total + 1) (g.Get SocketOption.CallbacksPerFrame) 0 qs
        = ([], qs) := by
      simp only [drainLoopFuel]
      rw [if_neg hpos]
    rw [hdef, hz]
    refine ⟨by simp, ?_, ⟨[], by simp, by simp⟩, rfl⟩
    intro hlt
    simp at hlt
    omega

/-- Witness for C4 on the never-set global options (budget 1) and a queue
set holding a Connect and an Error event. -/
theorem process_pending_callbacks_budget_order_witness :
    ((CallbackManager.ProcessPendingCallbacks g_GlobalOptionsInit sampleQueues).1).length ≤
      (g_GlobalOptionsInit.Get SocketOption.CallbacksPerFrame).toNat ∧
    (((CallbackManager.ProcessPendingCallbacks g_GlobalOptionsInit sampleQueues).1).length <
        (g_GlobalOptionsInit.Get SocketOption.CallbacksPerFrame).toNat →
      ((CallbackManager.ProcessPendingCallbacks g_GlobalOptionsInit sampleQueues).2).allEmpty) ∧
    (∃ rounds : List (List DrainedEvent),
       (CallbackManager.ProcessPendingCallbacks g_GlobalOptionsInit sampleQueues).1 =
         rounds.join ∧
       ∀ rd ∈ rounds, List.Chain' (· < ·) (rd.map DrainedEvent.channelIdx)) ∧
    GlobalOptions.Get g_GlobalOptionsInit SocketOption.CallbacksPerFrame = 1 :=
  process_pending_callbacks_budget_order g_GlobalOptionsInit sampleQueues

/-- C7: every enqueue function (one per event kind) is total and never
escalates: on a full channel the event is dropped, the channel is left
unchanged, a receive payload that was already allocated is freed again,
and a log line is emitted exactly when DebugMode is set; a failed
receive-payload allocation skips the event the same way. -/
theorem enqueue_drop_policy (g : GlobalOptions) (freshId cap : Nat)
    (dataQueue : List QueuedDataEvent) (socket : Option SocketBase) (data : List Nat)
    (sender : RemoteEndpoint) (errorQueue : List QueuedErrorEvent)
    (errorType : SocketError) (errorMsg : String)
    (connectQueue : List QueuedConnectEvent) (endpoint : RemoteEndpoint)
    (disconnectQueue : List QueuedDisconnectEvent)
    (listenQueue : List QueuedListenEvent) (localEndpoint : RemoteEndpoint)
    (incomingQueue : List QueuedIncomingEvent) (newSocket : Option SocketBase)
    (remoteEndpoint : RemoteEndpoint) :
    ((CallbackManager.EnqueueReceive g false freshId cap dataQueue socket data
        sender).m_dataQueue = dataQueue ∧
     (CallbackManager.EnqueueReceive g false freshId cap dataQueue socket data
        sender).freed = [] ∧
     ((CallbackManager.EnqueueReceive g false freshId cap dataQueue socket data
        sender).logs ≠ [] ↔ g.Get SocketOption.DebugMode ≠ 0)) ∧
    (cap ≤ dataQueue.length →
      (CallbackManager.EnqueueReceive g true freshId cap dataQueue socket data
        sender).m_dataQueue = dataQueue ∧
      (CallbackManager.EnqueueReceive g true freshId cap dataQueue socket data
        sender).freed = [freshId] ∧
      ((CallbackManager.EnqueueReceive g true freshId cap dataQueue socket data
        sender).logs ≠ [] ↔ g.Get SocketOption.DebugMode ≠ 0)) ∧
    (cap ≤ errorQueue.length →
      (CallbackManager.EnqueueError g cap errorQueue socket errorType errorMsg).1
        = errorQueue ∧
      ((CallbackManager.EnqueueError g cap errorQueue socket errorType errorMsg).2 ≠ []
        ↔ g.Get SocketOption.DebugMode ≠ 0)) ∧
    (cap ≤ connectQueue.length →
      (CallbackManager.EnqueueConnect g cap connectQueue socket endpoint).1
        = connectQueue ∧
      ((CallbackManager.EnqueueConnect g cap connectQueue socket endpoint).2 ≠ []
        ↔ g.Get SocketOption.DebugMode ≠ 0)) ∧
    (cap ≤ disconnectQueue.length →
      (CallbackManager.EnqueueDisconnect g cap disconnectQueue socket).1
        = disconnectQueue ∧
      ((CallbackManager.EnqueueDisconnect g cap disconnectQueue socket).2 ≠ []
        ↔ g.Get SocketOption.DebugMode ≠ 0)) ∧
    (cap ≤ listenQueue.length →
      (CallbackManager.EnqueueListen g cap listenQueue socket localEndpoint).1
        = listenQueue ∧
      ((CallbackManager.EnqueueListen g cap listenQueue socket localEndpoint).2 ≠ []
        ↔ g.Get SocketOption.DebugMode ≠ 0)) ∧
    (cap ≤ incomingQueue.length →
      (CallbackManager.EnqueueIncoming g cap incomingQueue socket newSocket
        remoteEndpoint).1 = incomingQueue ∧
      ((CallbackManager.EnqueueIncoming g cap incomingQueue socket newSocket
        remoteEndpoint).2 ≠ [] ↔ g.Get SocketOption.DebugMode ≠ 0)) := by
  by_cases hd : g.Get SocketOption.DebugMode = 0
  · refine ⟨⟨?_, ?_, ?_⟩, ?_, ?_, ?_, ?_, ?_, ?_⟩
    · simp [CallbackManager.EnqueueReceive]
    · simp [CallbackManager.EnqueueReceive]
    · simp [CallbackManager.EnqueueReceive, debugLog, hd]
    · intro hfull
      have hnf : ¬(dataQueue.length < cap) := by omega
      refine ⟨?_, ?_, ?_⟩ <;>
        simp [CallbackManager.EnqueueReceive, debugLog, hnf, hd]
    · intro hfull
      have hnf : ¬(errorQueue.length < cap) := by omega
      refine ⟨?_, ?_⟩ <;>
        simp [CallbackManager.EnqueueError, debugLog, hnf, hd]
    · intro hfull
      have hnf : ¬(connectQueue.length < cap) := by omega
      refine ⟨?_, ?_⟩ <;>
        simp [CallbackManager.EnqueueConnect, debugLog, hnf, hd]
    · intro hfull
      have hnf : ¬(disconnectQueue.length < cap) := by omega
      refine ⟨?_, ?_⟩ <;>
        simp [CallbackManager.EnqueueDisconnect, debugLog, hnf, hd]
    · intro hfull
      have hnf : ¬(listenQueue.length < cap) := by omega
      refine ⟨?_, ?_⟩ <;>
        simp [CallbackManager.EnqueueListen, debugLog, hnf, hd]
    · intro hfull
      have hnf : ¬(incomingQueue.length < cap) := by omega
      refine ⟨?_, ?_⟩ <;>
        simp [CallbackManager.EnqueueIncoming, debugLog, hnf, hd]
  · refine ⟨⟨?_, ?_, ?_⟩, ?_, ?_, ?_, ?_, ?_, ?_⟩
    · simp [CallbackManager.EnqueueReceive]
    · simp [CallbackManager.EnqueueReceive]
    · simp [CallbackManager.EnqueueReceive, debugLog, hd]
    · intro hfull
      have hnf : ¬(dataQueue.length < cap) := by omega
      refine ⟨?_, ?_, ?_⟩ <;>
        simp [CallbackManager.EnqueueReceive, debugLog, hnf, hd]
    · intro hfull
      have hnf : ¬(errorQueue.length < cap) := by omega
      refine ⟨?_, ?_⟩ <;>
        simp [CallbackManager.EnqueueError, debugLog, hnf, hd]
    · intro hfull
      have hnf : ¬(connectQueue.length < cap) := by omega
      refine ⟨?_, ?_⟩ <;>
        simp [CallbackManager.EnqueueConnect, debugLog, hnf, hd]
    · intro hfull
      have hnf : ¬(disconnectQueue.length < cap) := by omega
      refine ⟨?_, ?_⟩ <;>
        simp [CallbackManager.EnqueueDisconnect, debugLog, hnf, hd]
    · intro hfull
      have hnf : ¬(listenQueue.length < cap) := by omega
      refine ⟨?_, ?_⟩ <;>
        simp [CallbackManager.EnqueueListen, debugLog, hnf, hd]
    · intro hfull
      have hnf : ¬(incomingQueue.length < cap) := by omega
      refine ⟨?_, ?_⟩ <;>
        simp [CallbackManager.EnqueueIncoming, debugLog, hnf, hd]

/-- Witness for C7 at concrete inputs: capacity 0 channels (always full)
for every event kind, with DebugMode unset. -/
theorem enqueue_drop_policy_witness :
    ((CallbackManager.EnqueueReceive g_GlobalOptionsInit false 3 0 [] none [65]
        sampleEndpoint).m_dataQueue = [] ∧
     (CallbackManager.EnqueueReceive g_GlobalOptionsInit false 3 0 [] none [65]
        sampleEndpoint).freed = [] ∧
     ((CallbackManager.EnqueueReceive g_GlobalOptionsInit false 3 0 [] none [65]
        sampleEndpoint).logs ≠ [] ↔
        g_GlobalOptionsInit.Get SocketOption.DebugMode ≠ 0)) ∧
    ((0 : Nat) ≤ ([] : List QueuedDataEvent).length →
      (CallbackManager.EnqueueReceive g_GlobalOptionsInit true 3 0 [] none [65]
        sampleEndpoint).m_dataQueue = [] ∧
      (CallbackManager.EnqueueReceive g_GlobalOptionsInit true 3 0 [] none [65]
        sampleEndpoint).freed = [3] ∧
      ((CallbackManager.EnqueueReceive g_GlobalOptionsInit true 3 0 [] none [65]
        sampleEndpoint).logs ≠ [] ↔
        g_GlobalOptionsInit.Get SocketOption.DebugMode ≠ 0)) ∧
    ((0 : Nat) ≤ ([] : List QueuedErrorEvent).length →
      (CallbackManager.EnqueueError g_GlobalOptionsInit 0 [] none
        SocketError.RecvError "closed").1 = [] ∧
      ((CallbackManager.EnqueueError g_GlobalOptionsInit 0 [] none
        SocketError.RecvError "closed").2 ≠ [] ↔
        g_GlobalOptionsInit.Get SocketOption.DebugMode ≠ 0)) ∧
    ((0 : Nat) ≤ ([] : List QueuedConnectEvent).length →
      (CallbackManager.EnqueueConnect g_GlobalOptionsInit 0 [] none
        sampleEndpoint).1 = [] ∧
      ((CallbackManager.EnqueueConnect g_GlobalOptionsInit 0 [] none
        sampleEndpoint).2 ≠ [] ↔
        g_GlobalOptionsInit.Get SocketOption.DebugMode ≠ 0)) ∧
    ((0 : Nat) ≤ ([] : List QueuedDisconnectEvent).length →
      (CallbackManager.EnqueueDisconnect g_GlobalOptionsInit 0 [] none).1 = [] ∧
      ((CallbackManager.EnqueueDisconnect g_GlobalOptionsInit 0 [] none).2 ≠ [] ↔
        g_GlobalOptionsInit.Get SocketOption.DebugMode ≠ 0)) ∧
    ((0 : Nat) ≤ ([] : List QueuedListenEvent).length →
      (CallbackManager.EnqueueListen g_GlobalOptionsInit 0 [] none
        sampleEndpoint).1 = [] ∧
      ((CallbackManager.EnqueueListen g_GlobalOptionsInit 0 [] none
        sampleEndpoint).2 ≠ [] ↔
        g_GlobalOptionsInit.Get SocketOption.DebugMode ≠ 0)) ∧
    ((0 : Nat) ≤ ([] : List QueuedIncomingEvent).length →
      (CallbackManager.EnqueueIncoming g_GlobalOptionsInit 0 [] none none
        sampleEndpoint).1 = [] ∧
      ((CallbackManager.EnqueueIncoming g_GlobalOptionsInit 0 [] none none
        sampleEndpoint).2 ≠ [] ↔
        g_GlobalOptionsInit.Get SocketOption.DebugMode ≠ 0)) :=
  enqueue_drop_policy g_GlobalOptionsInit 3 0 [] none [65] sampleEndpoint []
    SocketError.RecvError "closed" [] sampleEndpoint [] [] sampleEndpoint []
    none sampleEndpoint

/-- C10: a Receive event that reaches the data channel carries a fresh
buffer of exactly length + 1 bytes: the received bytes followed by a NUL
terminator; and the drain's ExecuteReceive frees the event's buffer
exactly once, whether or not the callback is invoked. -/
theorem receive_buffer_contract (g : GlobalOptions) (freshId cap : Nat)
    (dataQueue : List QueuedDataEvent) (socket : Option SocketBase) (data : List Nat)
    (sender : RemoteEndpoint) (hroom : dataQueue.length < cap) :
    (CallbackManager.EnqueueReceive g true freshId cap dataQueue socket data
        sender).m_dataQueue
      = dataQueue ++
        [{ socket := socket, data := { id := freshId, bytes := data ++ [0] },
           length := data.length, sender := sender }] ∧
    (data ++ [0]).length = data.length + 1 ∧
    (data ++ [0]).take data.length = data ∧
    (data ++ [0])[data.length]? = some 0 ∧
    (CallbackManager.EnqueueReceive g true freshId cap dataQueue socket data
        sender).allocated = [freshId] ∧
    (CallbackManager.EnqueueReceive g true freshId cap dataQueue socket data
        sender).freed = [] ∧
    (∀ ev : QueuedDataEvent,
      (CallbackManager.ExecuteReceive ev).freedBuffers = [ev.data.id]) := by
  refine ⟨?_, by simp, ?_, ?_, ?_, ?_, ?_⟩
  · simp [CallbackManager.EnqueueReceive, hroom]
  · exact List.take_left data [0]
  · exact List.getElem?_concat_length data 0
  · simp [CallbackManager.EnqueueReceive, hroom]
  · simp [CallbackManager.EnqueueReceive, hroom]
  · intro ev
    rfl

/-- Witness for C10 on a concrete two-byte payload into an empty channel
of capacity 1. -/
theorem receive_buffer_contract_witness :
    ([] : List QueuedDataEvent).length < 1 ∧
    ((CallbackManager.EnqueueReceive g_GlobalOptionsInit true 9 1 [] none [104, 105]
        sampleEndpoint).m_dataQueue
      = [] ++
        [{ socket := none, data := { id := 9, bytes := [104, 105] ++ [0] },
           length := [104, 105].length, sender := sampleEndpoint }] ∧
    ([104, 105] ++ [0]).length = [104, 105].length + 1 ∧
    ([104, 105] ++ [0]).take [104, 105].length = [104, 105] ∧
    ([104, 105] ++ [0])[[104, 105].length]? = some 0 ∧
    (CallbackManager.EnqueueReceive g_GlobalOptionsInit true 9 1 [] none [104, 105]
        sampleEndpoint).allocated = [9] ∧
    (CallbackManager.EnqueueReceive g_GlobalOptionsInit true 9 1 [] none [104, 105]
        sampleEndpoint).freed = [] ∧
    (∀ ev : QueuedDataEvent,
      (CallbackManager.ExecuteReceive ev).freedBuffers = [ev.data.id])) :=
  ⟨by decide,
   receive_buffer_contract g_GlobalOptionsInit 9 1 [] none [104, 105] sampleEndpoint
     (by decide)⟩

/-- Counterexample to C8 as stated: on a live socket with AutoFreeHandle
set, a nonzero handle and a bound Connect callback, ExecuteConnect runs
the callback but frees no handle — the auto-free block exists only in
ExecuteDisconnect and ExecuteError. -/
theorem execute_connect_no_autofree :
    sampleBase.GetOption SocketOption.AutoFreeHandle ≠ 0 ∧
    sampleBase.m_smHandle ≠ 0 ∧
    CallbackManager.IsSocketValid (some sampleBase) = true ∧
    (CallbackManager.ExecuteConnect
        { socket := some sampleBase, remoteEndpoint := sampleEndpoint }).invocations ≠ [] ∧
    (CallbackManager.ExecuteConnect
        { socket := some sampleBase, remoteEndpoint := sampleEndpoint }).freedHandles
      = [] := by
  refine ⟨by decide, by decide, by decide, by decide, by decide⟩

/-- C8 (amended): after the drain runs a socket's Disconnect or Error
callback, the handle is released exactly when the AutoFreeHandle option
is set (and the handle is nonzero); running the Connect callback never
releases the handle; with the option unset no callback releases it. -/
theorem autofree_only_disconnect_error (s : SocketBase)
    (hvalid : CallbackManager.IsSocketValid (some s) = true) (ep : RemoteEndpoint) :
    (CallbackManager.ExecuteConnect { socket := some s, remoteEndpoint := ep }).freedHandles
      = [] ∧
    (s.GetOption SocketOption.AutoFreeHandle ≠ 0 → s.m_smHandle ≠ 0 →
      (s.GetCallback CallbackEvent.Disconnect).function ≠ none →
      (CallbackManager.ExecuteDisconnect { socket := some s }).freedHandles
        = [s.m_smHandle]) ∧
    (s.GetOption SocketOption.AutoFreeHandle ≠ 0 → s.m_smHandle ≠ 0 →
      (s.GetCallback CallbackEvent.Error).function ≠ none →
      ∀ et msg, (CallbackManager.ExecuteError
        { socket := some s, errorType := et, errorMsg := msg }).freedHandles
        = [s.m_smHandle]) ∧
    (s.GetOption SocketOption.AutoFreeHandle = 0 →
      (CallbackManager.ExecuteDisconnect { socket := some s }).freedHandles = [] ∧
      ∀ et msg, (CallbackManager.ExecuteError
        { socket := some s, errorType := et, errorMsg := msg }).freedHandles = []) := by
  refine ⟨?_, ?_, ?_, ?_⟩
  · cases hf : (s.GetCallback CallbackEvent.Connect).function with
    | none => simp [CallbackManager.ExecuteConnect, hvalid, hf, noEffect]
    | some fid => simp [CallbackManager.ExecuteConnect, hvalid, hf]
  · intro hopt hh hcb
    cases hf : (s.GetCallback CallbackEvent.Disconnect).function with
    | none => exact absurd hf hcb
    | some fid =>
      simp only [CallbackManager.ExecuteDisconnect, hvalid, if_pos, hf]
      rw [if_pos ⟨hopt, hh⟩]
  · intro hopt hh hcb et msg
    cases hf : (s.GetCallback CallbackEvent.Error).function with
    | none => exact absurd hf hcb
    | some fid =>
      simp only [CallbackManager.ExecuteError, hvalid, if_pos, hf]
      rw [if_pos ⟨hopt, hh⟩]
  · intro hzero
    constructor
    · cases hf : (s.GetCallback CallbackEvent.Disconnect).function with
      | none => simp [CallbackManager.ExecuteDisconnect, hvalid, hf, noEffect]
      | some fid =>
        simp [CallbackManager.ExecuteDisconnect, hvalid, hf, hzero]
    · intro et msg
      cases hf : (s.GetCallback CallbackEvent.Error).function with
      | none => simp [CallbackManager.ExecuteError, hvalid, hf, noEffect]
      | some fid =>
        simp [CallbackManager.ExecuteError, hvalid, hf, hzero]

/-- Witness for the amended C8 on the live sample socket (AutoFreeHandle
set, handle 5, all callbacks bound). -/
theorem autofree_only_disconnect_error_witness :
    CallbackManager.IsSocketValid (some sampleBase) = true ∧
    ((CallbackManager.ExecuteConnect
        { socket := some sampleBase, remoteEndpoint := sampleEndpoint }).freedHandles
      = [] ∧
    (sampleBase.GetOption SocketOption.AutoFreeHandle ≠ 0 → sampleBase.m_smHandle ≠ 0 →
      (sampleBase.GetCallback CallbackEvent.Disconnect).function ≠ none →
      (CallbackManager.ExecuteDisconnect { socket := some sampleBase }).freedHandles
        = [sampleBase.m_smHandle]) ∧
    (sampleBase.GetOption SocketOption.AutoFreeHandle ≠ 0 → sampleBase.m_smHandle ≠ 0 →
      (sampleBase.GetCallback CallbackEvent.Error).function ≠ none →
      ∀ et msg, (CallbackManager.ExecuteError
        { socket := some sampleBase, errorType := et, errorMsg := msg }).freedHandles
        = [sampleBase.m_smHandle]) ∧
    (sampleBase.GetOption SocketOption.AutoFreeHandle = 0 →
      (CallbackManager.ExecuteDisconnect { socket := some sampleBase }).freedHandles = [] ∧
      ∀ et msg, (CallbackManager.ExecuteError
        { socket := some sampleBase, errorType := et, errorMsg := msg }).freedHandles = [])) :=
  ⟨by decide, autofree_only_disconnect_error sampleBase (by decide) sampleEndpoint⟩

/-- C2 (code-bug evidence): the handle-destruction path
(OnHandleDestroy -> DestroySocket -> ~SocketWrapper -> ~TcpSocket ->
~SocketBase) never calls MarkDeleted, contradicting SocketBase.h's own
documentation of MarkDeleted ("Called from destructor") and the drain's
reliance on the flag: after the destruction path runs on a live socket,
the deleted flag is still false, IsSocketValid still accepts the socket
state, and an in-flight Connect event would still invoke the callback
(on freed memory, in the real program). -/
theorem destroy_path_never_sets_deleted :
    sampleTcp.base.m_deleted = false ∧
    (destroySocketPath sampleTcp).base.m_deleted = false ∧
    CallbackManager.IsSocketValid (some (destroySocketPath sampleTcp).base) = true ∧
    (CallbackManager.ExecuteConnect
        { socket := some (destroySocketPath sampleTcp).base,
          remoteEndpoint := sampleEndpoint }).invocations ≠ [] ∧
    (SocketBase.MarkDeleted sampleBase).m_deleted = true := by
  refine ⟨rfl, by decide, by decide, by decide, rfl⟩

/-- Counterexample to C3 as stated: a connect attempt whose completion
arrives with UV_ECANCELED (the socket was closed under it, e.g. by an
explicit Disconnect during the attempt) on a live socket enqueues neither
a Connect nor a ConnectError event — zero outcome events, not exactly
one. -/
theorem tcp_canceled_connect_attempt_no_event :
    sampleTcp.base.m_deleted = false ∧
    TcpSocket.connectAttemptEvents sampleTcp false UV_ECANCELED = [] ∧
    countConnectOutcome (TcpSocket.connectAttemptEvents sampleTcp false UV_ECANCELED)
      ≠ 1 := by
  refine ⟨rfl, by decide, by decide⟩

/-- C3 (amended): for a TCP connect attempt on a non-deleted socket,
exactly one of {Connect event, ConnectError event} is enqueued whenever
the completion status is not UV_ECANCELED; on success the Connect event
is enqueued and the receive path is started immediately; and when the
armed connect-timeout fires (the unreachable-address case), exactly one
ConnectError ("Connection timed out") is produced and the cancelled
completion that follows enqueues nothing, so no Connect event ever
follows.  A completion cancelled by an explicit close of the socket
(without the timeout) enqueues nothing. -/
theorem tcp_connect_exactly_one_outcome (t : TcpSocket)
    (hlive : t.base.m_deleted = false) :
    (∀ status : Int, status ≠ UV_ECANCELED →
      countConnectOutcome (t.connectAttemptEvents false status) = 1) ∧
    ((t.OnConnect 0).2.2 = true ∧
      ∃ ep, (t.OnConnect 0).2.1 = [EnqueuedEvent.connectEv ep]) ∧
    t.connectAttemptEvents true UV_ECANCELED =
      [EnqueuedEvent.errorEv SocketError.ConnectError "Connection timed out"] ∧
    countConnectOutcome (t.connectAttemptEvents true UV_ECANCELED) = 1 := by
  have hdel : (t.CancelConnectTimeout).base.IsDeleted = false := by
    simp [TcpSocket.CancelConnectTimeout, SocketBase.IsDeleted, hlive]
  refine ⟨?_, ?_, ?_, ?_⟩
  · intro status hs
    by_cases h0 : status = 0
    · subst h0
      simp [TcpSocket.connectAttemptEvents, TcpSocket.OnConnect, hdel,
        countConnectOutcome]
    · simp [TcpSocket.connectAttemptEvents, TcpSocket.OnConnect, hdel, h0, hs,
        countConnectOutcome]
  · constructor
    · simp [TcpSocket.OnConnect, hdel]
    · refine ⟨if (t.CancelConnectTimeout).m_remoteEndpointSet then
        (t.CancelConnectTimeout).m_remoteEndpoint else { address := "", port := 0 }, ?_⟩
      simp [TcpSocket.OnConnect, hdel]
  · simp [TcpSocket.connectAttemptEvents, TcpSocket.OnConnectTimeout,
      TcpSocket.OnConnect, TcpSocket.CancelConnectTimeout, SocketBase.IsDeleted, hlive,
      UV_ECANCELED]
  · simp [TcpSocket.connectAttemptEvents, TcpSocket.OnConnectTimeout,
      TcpSocket.OnConnect, TcpSocket.CancelConnectTimeout, SocketBase.IsDeleted, hlive,
      UV_ECANCELED, countConnectOutcome]

/-- Witness for the amended C3 on the live sample socket. -/
theorem tcp_connect_exactly_one_outcome_witness :
    sampleTcp.base.m_deleted = false ∧
    ((∀ status : Int, status ≠ UV_ECANCELED →
      countConnectOutcome (sampleTcp.connectAttemptEvents false status) = 1) ∧
    ((sampleTcp.OnConnect 0).2.2 = true ∧
      ∃ ep, (sampleTcp.OnConnect 0).2.1 = [EnqueuedEvent.connectEv ep]) ∧
    sampleTcp.connectAttemptEvents true UV_ECANCELED =
      [EnqueuedEvent.errorEv SocketError.ConnectError "Connection timed out"] ∧
    countConnectOutcome (sampleTcp.connectAttemptEvents true UV_ECANCELED) = 1) :=
  ⟨rfl, tcp_connect_exactly_one_outcome sampleTcp rfl⟩

/-- C5: in the descriptor-install race of InitSocket, whichever CAS runs
first installs its descriptor; the loser closes the descriptor it itself
created and the winner's install is never overwritten; the installed
descriptor is never among the closed ones and nothing is closed twice,
so no descriptor is leaked or double-installed. -/
theorem init_socket_cas_exclusive (d1 d2 : Nat) (firstWins : Bool) (hne : d1 ≠ d2) :
    (initSocketRace d1 d2 firstWins).m_socket
      = some (if firstWins then d1 else d2) ∧
    (initSocketRace d1 d2 firstWins).closedDescriptors
      = [if firstWins then d2 else d1] ∧
    (∀ d, (initSocketRace d1 d2 firstWins).m_socket = some d →
      d ∉ (initSocketRace d1 d2 firstWins).closedDescriptors) ∧
    (initSocketRace d1 d2 firstWins).closedDescriptors.Nodup := by
  cases firstWins with
  | false =>
    refine ⟨by simp [initSocketRace, InitSocketInstall],
      by simp [initSocketRace, InitSocketInstall], ?_,
      by simp [initSocketRace, InitSocketInstall]⟩
    intro d hd
    simp [initSocketRace, InitSocketInstall] at hd ⊢
    omega
  | true =>
    refine ⟨by simp [initSocketRace, InitSocketInstall],
      by simp [initSocketRace, InitSocketInstall], ?_,
      by simp [initSocketRace, InitSocketInstall]⟩
    intro d hd
    simp [initSocketRace, InitSocketInstall] at hd ⊢
    omega

/-- Witness for C5 with descriptors 10 and 11, in both CAS orders via the
concrete order true. -/
theorem init_socket_cas_exclusive_witness :
    (10 : Nat) ≠ 11 ∧
    ((initSocketRace 10 11 true).m_socket = some (if true then 10 else 11) ∧
    (initSocketRace 10 11 true).closedDescriptors = [if true then 11 else 10] ∧
    (∀ d, (initSocketRace 10 11 true).m_socket = some d →
      d ∉ (initSocketRace 10 11 true).closedDescriptors) ∧
    (initSocketRace 10 11 true).closedDescriptors.Nodup) :=
  ⟨by decide, init_socket_cas_exclusive 10 11 true (by decide)⟩

/-- C6: Disconnect is idempotent.  The first call swaps the descriptor
(and acceptor) pointers to null and posts exactly one close per live
descriptor; a second call in immediate succession obtains only null
pointers, posts no close, and leaves the state unchanged. -/
theorem disconnect_idempotent (t : TcpSocket) (u : UdpSocket)
    (hdistinct : ∀ d, ¬(t.m_socket = some d ∧ t.m_acceptor = some d)) :
    ((TcpSocket.Disconnect t).2.1 = t.m_socket.toList ++ t.m_acceptor.toList ∧
     (TcpSocket.Disconnect t).2.2 = true ∧
     ((TcpSocket.Disconnect t).2.1).Nodup ∧
     (TcpSocket.Disconnect (TcpSocket.Disconnect t).1).2.1 = [] ∧
     (TcpSocket.Disconnect (TcpSocket.Disconnect t).1).1 = (TcpSocket.Disconnect t).1) ∧
    ((UdpSocket.Disconnect u).2.1 = u.m_socket.toList ∧
     (UdpSocket.Disconnect u).2.2 = true ∧
     (UdpSocket.Disconnect (UdpSocket.Disconnect u).1).2.1 = [] ∧
     (UdpSocket.Disconnect (UdpSocket.Disconnect u).1).1 = (UdpSocket.Disconnect u).1) := by
  refine ⟨⟨rfl, rfl, ?_, rfl, rfl⟩, rfl, rfl, rfl, rfl⟩
  cases hs : t.m_socket with
  | none => cases ha : t.m_acceptor with
    | none => simp [TcpSocket.Disconnect, hs, ha]
    | some b => simp [TcpSocket.Disconnect, hs, ha]
  | some a => cases ha : t.m_acceptor with
    | none => simp [TcpSocket.Disconnect, hs, ha]
    | some b =>
      simp only [TcpSocket.Disconnect, hs, ha, Option.toList_some, List.cons_append,
        List.nil_append, List.nodup_cons, List.mem_singleton, List.nodup_nil,
        and_true, List.not_mem_nil, not_false_iff]
      intro hab
      exact hdistinct a ⟨hs, by rw [ha, hab]⟩

/-- Witness for C6 on the live sample sockets. -/
theorem disconnect_idempotent_witness :
    (∀ d, ¬(sampleTcp.m_socket = some d ∧ sampleTcp.m_acceptor = some d)) ∧
    (((TcpSocket.Disconnect sampleTcp).2.1
        = sampleTcp.m_socket.toList ++ sampleTcp.m_acceptor.toList ∧
     (TcpSocket.Disconnect sampleTcp).2.2 = true ∧
     ((TcpSocket.Disconnect sampleTcp).2.1).Nodup ∧
     (TcpSocket.Disconnect (TcpSocket.Disconnect sampleTcp).1).2.1 = [] ∧
     (TcpSocket.Disconnect (TcpSocket.Disconnect sampleTcp).1).1
        = (TcpSocket.Disconnect sampleTcp).1) ∧
    ((UdpSocket.Disconnect sampleUdp).2.1 = sampleUdp.m_socket.toList ∧
     (UdpSocket.Disconnect sampleUdp).2.2 = true ∧
     (UdpSocket.Disconnect (UdpSocket.Disconnect sampleUdp).1).2.1 = [] ∧
     (UdpSocket.Disconnect (UdpSocket.Disconnect sampleUdp).1).1
        = (UdpSocket.Disconnect sampleUdp).1)) := by
  have hd : ∀ d, ¬(sampleTcp.m_socket = some d ∧ sampleTcp.m_acceptor = some d) := by
    intro d hcon
    have hx := hcon.2
    simp [sampleTcp] at hx
  exact ⟨hd, disconnect_idempotent sampleTcp sampleUdp hd⟩

/-- Counterexample to C9 as stated: a Unix socket whose path is already
recorded does not fail a second bind call — it returns true (it does
leave the recorded path unchanged). -/
theorem unix_bind_already_bound_returns_true :
    sampleUnix.m_path ≠ "" ∧
    (UnixSocket.Bind sampleUnix "/tmp/other.sock" 0 false).1 = true ∧
    (UnixSocket.Bind sampleUnix "/tmp/other.sock" 0 false).2.m_path
      = sampleUnix.m_path := by
  refine ⟨by decide, by decide, by decide⟩

/-- C9 (amended): TCP and UDP bind fail (return false) on a socket whose
local address is already recorded and leave the recorded address
unchanged; the Unix variant never overwrites an already-recorded path but
still returns true. -/
theorem bind_at_most_once (t : TcpSocket) (u : UdpSocket) (s : UnixSocket)
    (hostname : String) (port : Nat) (async resolveOk : Bool) (path : String)
    (ht : t.m_localAddrSet = true) (hu : u.m_localAddrSet = true) (hs : s.m_path ≠ "") :
    TcpSocket.Bind t hostname port async resolveOk = (false, t) ∧
    UdpSocket.Bind u hostname port async resolveOk = (false, u) ∧
    (UnixSocket.Bind s path port async).1 = true ∧
    (UnixSocket.Bind s path port async).2 = s := by
  refine ⟨by simp [TcpSocket.Bind, ht], by simp [UdpSocket.Bind, hu],
    by simp [UnixSocket.Bind, hs], by simp [UnixSocket.Bind, hs]⟩

/-- Witness for the amended C9 on concrete already-bound sockets. -/
theorem bind_at_most_once_witness :
    sampleTcpBound.m_localAddrSet = true ∧
    sampleUdpBound.m_localAddrSet = true ∧
    sampleUnix.m_path ≠ "" ∧
    (TcpSocket.Bind sampleTcpBound "h" 1 false true = (false, sampleTcpBound) ∧
    UdpSocket.Bind sampleUdpBound "h" 1 false true = (false, sampleUdpBound) ∧
    (UnixSocket.Bind sampleUnix "/x" 1 false).1 = true ∧
    (UnixSocket.Bind sampleUnix "/x" 1 false).2 = sampleUnix) :=
  ⟨rfl, rfl, by decide,
   bind_at_most_once sampleTcpBound sampleUdpBound sampleUnix "h" 1 false true "/x"
     rfl rfl (by decide)⟩
